import Mathlib

/-!
Verification of the ELO expression compiler (lexer, parser, constant-folding
optimizer, type inference, code generation) against its specification.

The Rust sources are shallowly embedded: `i64` is `Int` with explicit range
checks (`-2^63 ≤ n ≤ 2^63 - 1`); Rust operations that panic are modelled in
`Except String`; `f64` is an abstract carrier `F` bundled with its operations
in `FloatOps F` (no theorem below depends on floating-point semantics, so the
carrier stays a parameter and witnesses instantiate it with `Unit`); Rust
`proc_macro2::TokenStream` fragments are rendered as `String`s.
-/

namespace Elo

/-! ### 64-bit signed integer model -/

/-- Smallest `i64` value, `-2^63`. -/
def I64_MIN : Int := -(2 ^ 63)

/-- Largest `i64` value, `2^63 - 1`. -/
def I64_MAX : Int := 2 ^ 63 - 1

/-- Whether an integer is representable as an `i64`. -/
def i64Fits (n : Int) : Bool := decide (I64_MIN ≤ n ∧ n ≤ I64_MAX)

/-- Result of a checked `i64` operation: the exact value when representable. -/
def checkedI64 (n : Int) : Option Int := if i64Fits n then some n else none

/-- Rust `i64::checked_add`. -/
def checkedAdd (a b : Int) : Option Int := checkedI64 (a + b)

/-- Rust `i64::checked_sub`. -/
def checkedSub (a b : Int) : Option Int := checkedI64 (a - b)

/-- Rust `i64::checked_mul`. -/
def checkedMul (a b : Int) : Option Int := checkedI64 (a * b)

/-- Rust `i64::checked_div`: `None` on a zero divisor or on `i64::MIN / -1`;
otherwise the quotient truncated toward zero (Rust integer division). -/
def checkedDiv (a b : Int) : Option Int :=
  if b = 0 then none
  else if a = I64_MIN ∧ b = -1 then none
  else some (Int.tdiv a b)

/-- Rust `i64::checked_pow` for an exponent already known to be in `0..=31`:
`None` exactly when the mathematical power overflows `i64`. -/
def checkedPow (a : Int) (e : Nat) : Option Int := checkedI64 (a ^ e)

/-- Two's-complement wrap into the `i64` range (release-mode Rust overflow
semantics for plain negation). -/
def wrap64 (n : Int) : Int := (n + 2 ^ 63) % 2 ^ 64 - 2 ^ 63

/-! ### Abstract `f64` carrier

The compiler never branches on float values except through the operations
below, so the carrier is kept abstract and threaded through the embedding. -/

/-- The `f64` operations the embedded compiler uses. -/
structure FloatOps (F : Type) where
  /-- Rust `str::parse::<f64>` on the characters collected by `read_number`. -/
  parseFloat : String → Option F
  fadd : F → F → F
  fsub : F → F → F
  fmul : F → F → F
  fdiv : F → F → F
  frem : F → F → F
  fpow : F → F → F
  fneg : F → F
  fabs : F → F
  flt : F → F → Bool
  fle : F → F → Bool
  fgt : F → F → Bool
  fge : F → F → Bool
  fbeq : F → F → Bool
  fzero : F
  /-- `f64::EPSILON`, used by the optimizer's float equality fold. -/
  feps : F
  /-- Rendering of a float literal into a generated-code fragment. -/
  render : F → String

/-- Trivial float model on `Unit`, used to state closed (witness) theorems;
every theorem over `FloatOps` holds for all models, this one included. -/
def unitOps : FloatOps Unit where
  parseFloat _ := some ()
  fadd _ _ := ()
  fsub _ _ := ()
  fmul _ _ := ()
  fdiv _ _ := ()
  frem _ _ := ()
  fpow _ _ := ()
  fneg _ := ()
  fabs _ := ()
  flt _ _ := false
  fle _ _ := true
  fgt _ _ := false
  fge _ _ := true
  fbeq _ _ := true
  fzero := ()
  feps := ()
  render _ := "0f64"

/-! ### Type-inference lattice (src/codegen/type_inference.rs, `InferredType`) -/

/-- Inferred type of an ELO expression (`InferredType` in the source). -/
inductive InferredType : Type where
  | integer
  | float
  | string
  | boolean
  | null
  | array (elem : InferredType)
  | object
  | date
  | dateTime
  | duration
  | unknown
  | numeric
  | error (msg : String)
deriving DecidableEq, Repr

namespace InferredType

/-- The `fmt::Display` rendering of a type, used inside error messages. -/
def display : InferredType → String
  | .integer => "integer"
  | .float => "float"
  | .string => "string"
  | .boolean => "boolean"
  | .null => "null"
  | .array t => "[" ++ t.display ++ "]"
  | .object => "object"
  | .date => "date"
  | .dateTime => "datetime"
  | .duration => "duration"
  | .unknown => "unknown"
  | .numeric => "number"
  | .error msg => "error(" ++ msg ++ ")"

/-- `InferredType::is_numeric`. -/
def is_numeric : InferredType → Bool
  | .integer | .float | .numeric => true
  | _ => false

/-- `InferredType::is_error`. -/
def is_error : InferredType → Bool
  | .error _ => true
  | _ => false

/-- `InferredType::common_type`: the unifier of two types. Mirrors the Rust
match arm for arm; the first (guarded) arm is the leading `if`. -/
def common_type (a b : InferredType) : InferredType :=
  if a = b then a
  else
    match a, b with
    | .integer, .float => .float
    | .float, .integer => .float
    | .numeric, other =>
        if other.is_numeric then other
        else .error ("Type mismatch: cannot unify numeric and " ++ other.display)
    | other, .numeric =>
        if other.is_numeric then other
        else .error ("Type mismatch: cannot unify numeric and " ++ other.display)
    | .unknown, t => t
    | t, .unknown => t
    | .array x, .array y => .array (common_type x y)
    | _, _ =>
        .error ("Type mismatch: cannot unify " ++ a.display ++ " and " ++ b.display)

/-- Erase the text of every `error` message (also inside array element types):
quotients the lattice by error-message wording. -/
def eraseError : InferredType → InferredType
  | .array t => .array t.eraseError
  | .error _ => .error ""
  | t => t

end InferredType

/-! ### AST (src/ast/mod.rs) -/

/-- `BinaryOperator`: the 14 binary operator tags. -/
inductive BinaryOperator : Type where
  | add | sub | mul | div | mod | pow
  | eq | neq | lt | lte | gt | gte
  | and | or
deriving DecidableEq, Repr

/-- `UnaryOperator`: the 3 unary operator tags. -/
inductive UnaryOperator : Type where
  | not | neg | plus
deriving DecidableEq, Repr

/-- `TemporalKeyword`: the 15 temporal keywords plus `Now`. -/
inductive TemporalKeyword : Type where
  | now | today | tomorrow | yesterday
  | startOfDay | endOfDay | startOfWeek | endOfWeek
  | startOfMonth | endOfMonth | startOfQuarter | endOfQuarter
  | startOfYear | endOfYear | beginningOfTime | endOfTime
deriving DecidableEq, Repr

/-- `Literal`: integer (`i64`, embedded as `Int`), float (abstract carrier
`F`), boolean. -/
inductive Literal (F : Type) : Type where
  | integer (n : Int)
  | float (f : F)
  | boolean (b : Bool)
deriving DecidableEq, Repr

/-- `Expr`: the 20-variant ELO AST. `Let`, `If` and the keyword-clashing
variants keep their source names up to Lean keyword restrictions
(`letE`, `ifE`). -/
inductive Expr (F : Type) : Type where
  | literal (lit : Literal F)
  | null
  | identifier (name : String)
  | fieldAccess (receiver : Expr F) (field : String)
  | binaryOp (op : BinaryOperator) (left right : Expr F)
  | unaryOp (op : UnaryOperator) (operand : Expr F)
  | functionCall (name : String) (args : List (Expr F))
  | lambda (param : String) (body : Expr F)
  | letE (name : String) (value body : Expr F)
  | ifE (condition thenBranch elseBranch : Expr F)
  | array (elements : List (Expr F))
  | object (fields : List (String × Expr F))
  | pipe (value : Expr F) (functions : List (Expr F))
  | alternative (primary alternative : Expr F)
  | guard (condition body : Expr F)
  | date (s : String)
  | dateTime (s : String)
  | duration (s : String)
  | temporalKeyword (k : TemporalKeyword)
  | string (s : String)

/-! ### Optimizer (src/codegen/optimization.rs)

`Optimizer::fold_constants` is pure in Rust except that the integer `Mod`
arm computes `l % r` with the built-in `%`, which panics (in every build
profile) on `i64::MIN % -1`; the embedding therefore lives in
`Except String`, the error being the Rust panic message. -/

namespace Optimizer

variable {F : Type}

/-- `Optimizer::fold_binary_op`: fold one binary operation over two literals.
`.ok none` means the fold is skipped (the node stays a `BinaryOp`); `.error`
is the Rust panic on `i64::MIN % -1`. Guarded Rust arms (`Div if *r != 0`)
fall through to the catch-all `None` when the guard fails, as in the source. -/
def fold_binary_op (ops : FloatOps F) :
    BinaryOperator → Literal F → Literal F → Except String (Option (Expr F))
  | op, .integer l, .integer r =>
    match op with
    | .add => .ok ((checkedAdd l r).map fun n => .literal (.integer n))
    | .sub => .ok ((checkedSub l r).map fun n => .literal (.integer n))
    | .mul => .ok ((checkedMul l r).map fun n => .literal (.integer n))
    | .div =>
        if r = 0 then .ok none
        else .ok ((checkedDiv l r).map fun n => .literal (.integer n))
    | .mod =>
        if r = 0 then .ok none
        else if l = I64_MIN ∧ r = -1 then
          .error "attempt to calculate the remainder with overflow"
        else .ok (some (.literal (.integer (Int.tmod l r))))
    | .pow =>
        if r < 0 ∨ 31 < r then .ok none
        else .ok ((checkedPow l r.toNat).map fun n => .literal (.integer n))
    | .eq => .ok (some (.literal (.boolean (decide (l = r)))))
    | .neq => .ok (some (.literal (.boolean (decide (l ≠ r)))))
    | .lt => .ok (some (.literal (.boolean (decide (l < r)))))
    | .lte => .ok (some (.literal (.boolean (decide (l ≤ r)))))
    | .gt => .ok (some (.literal (.boolean (decide (r < l)))))
    | .gte => .ok (some (.literal (.boolean (decide (r ≤ l)))))
    | _ => .ok none
  | op, .float l, .float r =>
    match op with
    | .add => .ok (some (.literal (.float (ops.fadd l r))))
    | .sub => .ok (some (.literal (.float (ops.fsub l r))))
    | .mul => .ok (some (.literal (.float (ops.fmul l r))))
    | .div =>
        if ops.fbeq r ops.fzero then .ok none
        else .ok (some (.literal (.float (ops.fdiv l r))))
    | .mod =>
        if ops.fbeq r ops.fzero then .ok none
        else .ok (some (.literal (.float (ops.frem l r))))
    | .pow => .ok (some (.literal (.float (ops.fpow l r))))
    | .eq => .ok (some (.literal (.boolean (ops.flt (ops.fabs (ops.fsub l r)) ops.feps))))
    | .neq => .ok (some (.literal (.boolean (ops.fge (ops.fabs (ops.fsub l r)) ops.feps))))
    | .lt => .ok (some (.literal (.boolean (ops.flt l r))))
    | .lte => .ok (some (.literal (.boolean (ops.fle l r))))
    | .gt => .ok (some (.literal (.boolean (ops.fgt l r))))
    | .gte => .ok (some (.literal (.boolean (ops.fge l r))))
    | _ => .ok none
  | op, .boolean l, .boolean r =>
    match op with
    | .and => .ok (some (.literal (.boolean (l && r))))
    | .or => .ok (some (.literal (.boolean (l || r))))
    | .eq => .ok (some (.literal (.boolean (l == r))))
    | .neq => .ok (some (.literal (.boolean (l != r))))
    | _ => .ok none
  | _, _, _ => .ok none

/-- `Optimizer::fold_unary_op`. Plain `-n` wraps on overflow (release-mode
Rust semantics), hence `wrap64`. -/
def fold_unary_op (ops : FloatOps F) : UnaryOperator → Literal F → Option (Expr F)
  | .not, .boolean b => some (.literal (.boolean (!b)))
  | .not, _ => none
  | .neg, .integer n => some (.literal (.integer (wrap64 (-n))))
  | .neg, .float x => some (.literal (.float (ops.fneg x)))
  | .neg, _ => none
  | .plus, .integer n => some (.literal (.integer n))
  | .plus, .float x => some (.literal (.float x))
  | .plus, _ => none

mutual

/-- `Optimizer::fold_constants`: post-order constant folding. -/
def fold_constants (ops : FloatOps F) : Expr F → Except String (Expr F)
  | .binaryOp op l r => do
      let lf ← fold_constants ops l
      let rf ← fold_constants ops r
      match lf, rf with
      | .literal ll, .literal rl => do
          match ← fold_binary_op ops op ll rl with
          | some folded => pure folded
          | none => pure (.binaryOp op (.literal ll) (.literal rl))
      | lf, rf => pure (.binaryOp op lf rf)
  | .unaryOp op o => do
      let oprnd ← fold_constants ops o
      match oprnd with
      | .literal ll =>
          match fold_unary_op ops op ll with
          | some folded => pure folded
          | none => pure (.unaryOp op (.literal ll))
      | oprnd => pure (.unaryOp op oprnd)
  | .array es => do pure (.array (← fold_list ops es))
  | .object fs => do pure (.object (← fold_fields ops fs))
  | .fieldAccess receiver field => do
      pure (.fieldAccess (← fold_constants ops receiver) field)
  | .functionCall name args => do pure (.functionCall name (← fold_list ops args))
  | .lambda param body => do pure (.lambda param (← fold_constants ops body))
  | .letE name value body => do
      pure (.letE name (← fold_constants ops value) (← fold_constants ops body))
  | .ifE c t e => do
      pure (.ifE (← fold_constants ops c) (← fold_constants ops t)
        (← fold_constants ops e))
  | .pipe value functions => do
      pure (.pipe (← fold_constants ops value) (← fold_list ops functions))
  | .alternative p a => do
      pure (.alternative (← fold_constants ops p) (← fold_constants ops a))
  | .guard c b => do
      pure (.guard (← fold_constants ops c) (← fold_constants ops b))
  | e => pure e

/-- Fold every expression of a list (the `iter().map(...)` of the source). -/
def fold_list (ops : FloatOps F) : List (Expr F) → Except String (List (Expr F))
  | [] => pure []
  | e :: rest => do pure ((← fold_constants ops e) :: (← fold_list ops rest))

/-- Fold the value of every object field. -/
def fold_fields (ops : FloatOps F) :
    List (String × Expr F) → Except String (List (String × Expr F))
  | [] => pure []
  | (k, v) :: rest => do pure ((k, ← fold_constants ops v) :: (← fold_fields ops rest))

end

/-- `Optimizer::optimize`. -/
def optimize (ops : FloatOps F) (e : Expr F) : Except String (Expr F) :=
  fold_constants ops e

end Optimizer

/-! ### Type inference (src/codegen/type_inference.rs, `TypeInferenceVisitor`) -/

namespace TypeInference

variable {F : Type}

open InferredType (common_type)

/-- The operator-level typing rules of `infer_binary_op`, over the two child
types (the source computes `left_type`/`right_type` first and then matches;
this is that match). -/
def infer_binary_types (op : BinaryOperator)
    (left_type right_type : InferredType) : InferredType :=
  match op with
  | .add =>
    match left_type, right_type with
    | .integer, .integer => .integer
    | .float, .float => .float
    | .integer, .float | .float, .integer => .float
    | .string, .string => .string
    | .date, .duration | .duration, .date => .date
    | .dateTime, .duration | .duration, .dateTime => .dateTime
    | .duration, .duration => .duration
    | .unknown, t | t, .unknown => t
    | _, _ =>
        .error ("Cannot add " ++ left_type.display ++ " and " ++ right_type.display)
  | .sub =>
    match left_type, right_type with
    | .integer, .integer => .integer
    | .float, .float => .float
    | .integer, .float | .float, .integer => .float
    | .date, .duration => .date
    | .dateTime, .duration => .dateTime
    | .date, .date => .duration
    | .dateTime, .dateTime => .duration
    | .duration, .duration => .duration
    | .unknown, t | t, .unknown =>
        if t.is_numeric then t
        else
          .error ("Cannot apply arithmetic to " ++ left_type.display ++ " and " ++
            right_type.display)
    | _, _ =>
        .error ("Cannot apply arithmetic to " ++ left_type.display ++ " and " ++
          right_type.display)
  | .mul | .div =>
    match left_type, right_type with
    | .integer, .integer => .integer
    | .float, .float => .float
    | .integer, .float | .float, .integer => .float
    | .unknown, t | t, .unknown =>
        if t.is_numeric then t
        else
          .error ("Cannot apply arithmetic to " ++ left_type.display ++ " and " ++
            right_type.display)
    | _, _ =>
        .error ("Cannot apply arithmetic to " ++ left_type.display ++ " and " ++
          right_type.display)
  | .mod | .pow =>
    if left_type.is_numeric && right_type.is_numeric then .integer
    else if left_type = .unknown || right_type = .unknown then .integer
    else
      .error ("Cannot apply operator to " ++ left_type.display ++ " and " ++
        right_type.display)
  | .eq | .neq | .lt | .lte | .gt | .gte => .boolean
  | .and | .or => .boolean

/-- The typing rule of `infer_unary_op` over the operand type. -/
def infer_unary_types (op : UnaryOperator) (operand_type : InferredType) :
    InferredType :=
  match op with
  | .not => .boolean
  | .neg | .plus => operand_type

mutual

/-- `TypeInferenceVisitor::infer_expr`. -/
def infer_expr : Expr F → InferredType
  | .literal (.integer _) => .integer
  | .literal (.float _) => .float
  | .literal (.boolean _) => .boolean
  | .null => .null
  | .identifier _ => .unknown
  | .string _ => .string
  | .fieldAccess _ _ => .unknown
  | .binaryOp op l r => infer_binary_types op (infer_expr l) (infer_expr r)
  | .unaryOp op o => infer_unary_types op (infer_expr o)
  | .functionCall name args => infer_function_call name args
  | .lambda _ _ => .unknown
  | .letE _ _ body => infer_expr body
  | .ifE _ t e => common_type (infer_expr t) (infer_expr e)
  | .array es =>
      match es with
      | [] => .array .unknown
      | e :: rest => .array (infer_array_loop (infer_expr e) rest)
  | .object _ => .object
  | .pipe _ functions =>
      match functions with
      | [] => .unknown
      | f :: fs => infer_last (infer_expr f) fs
  | .alternative p a => common_type (infer_expr p) (infer_expr a)
  | .guard _ body => infer_expr body
  | .date _ => .date
  | .dateTime _ => .dateTime
  | .duration _ => .duration
  | .temporalKeyword k =>
      match k with
      | .now => .dateTime
      | .today | .tomorrow | .yesterday => .date
      | _ => .date

/-- `TypeInferenceVisitor::infer_function_call`. -/
def infer_function_call (name : String) (args : List (Expr F)) : InferredType :=
  match name with
  | "length" | "uppercase" | "lowercase" | "trim" | "contains" | "starts_with"
  | "ends_with" => .string
  | "map" | "filter" | "sort" => .array .unknown
  | "abs" | "min" | "max" | "round" | "floor" | "ceil" =>
    match args with
    | [] => .unknown
    | a :: _ =>
        let arg_type := infer_expr a
        if arg_type.is_numeric then arg_type
        else .error ("Expected numeric argument, got " ++ arg_type.display)
  | "all" | "any" => .boolean
  | _ => .unknown

/-- The element-unification loop of the `Array` arm (breaks on the first
error, as the source does). -/
def infer_array_loop (common : InferredType) : List (Expr F) → InferredType
  | [] => common
  | e :: rest =>
      let c := common_type common (infer_expr e)
      if c.is_error then c else infer_array_loop c rest

/-- Inference of the last pipe stage (`functions.last().unwrap()`): carries
the most recent stage type along the list so that the recursion stays
structural; inference being pure and total, the result is the inferred type
of the last stage, exactly as in the source. -/
def infer_last (t : InferredType) : List (Expr F) → InferredType
  | [] => t
  | g :: gs => infer_last (infer_expr g) gs

end

/-- `TypeInferenceVisitor::infer_binary_op` (infers both children, then
applies the operator rules). -/
def infer_binary_op (op : BinaryOperator) (left right : Expr F) : InferredType :=
  infer_binary_types op (infer_expr left) (infer_expr right)

/-- `TypeInferenceVisitor::infer_unary_op`. -/
def infer_unary_op (op : UnaryOperator) (operand : Expr F) : InferredType :=
  infer_unary_types op (infer_expr operand)

/-- `TypeInferenceVisitor::infer`, the public entry point. -/
def infer (e : Expr F) : InferredType := infer_expr e

end TypeInference

/-! ### The `Visitor<InferredType>` implementation of `TypeInferenceVisitor`
(src/codegen/type_inference.rs, lines 348-462). The visitor is stateless, so
each handler is a plain function. -/

namespace TIVisitor

variable {F : Type}

open TypeInference

/-- `visit_expr` delegates to `infer_expr`. -/
def visit_expr (e : Expr F) : InferredType := infer_expr e

/-- `visit_literal`. -/
def visit_literal : Literal F → InferredType
  | .integer _ => .integer
  | .float _ => .float
  | .boolean _ => .boolean

/-- `visit_null`. -/
def visit_null : InferredType := .null

/-- `visit_identifier`. -/
def visit_identifier (_name : String) : InferredType := .unknown

/-- `visit_field_access`. -/
def visit_field_access (_receiver : Expr F) (_field : String) : InferredType :=
  .unknown

/-- `visit_binary_op`. -/
def visit_binary_op (op : BinaryOperator) (left right : Expr F) : InferredType :=
  infer_binary_op op left right

/-- `visit_unary_op`. -/
def visit_unary_op (op : UnaryOperator) (operand : Expr F) : InferredType :=
  infer_unary_op op operand

/-- `visit_function_call`. -/
def visit_function_call (name : String) (args : List (Expr F)) : InferredType :=
  infer_function_call name args

/-- `visit_lambda`. -/
def visit_lambda (_param : String) (_body : Expr F) : InferredType := .unknown

/-- `visit_let`. -/
def visit_let (_name : String) (_value body : Expr F) : InferredType :=
  infer_expr body

/-- `visit_if`. -/
def visit_if (_condition thenBranch elseBranch : Expr F) : InferredType :=
  InferredType.common_type (infer_expr thenBranch) (infer_expr elseBranch)

/-- `visit_array`. -/
def visit_array (elements : List (Expr F)) : InferredType :=
  match elements with
  | [] => .array .unknown
  | e :: rest => .array (infer_array_loop (infer_expr e) rest)

/-- `visit_object`. -/
def visit_object (_fields : List (String × Expr F)) : InferredType := .object

/-- `visit_pipe`: note that with an empty stage list this infers the piped
value, where `infer_expr` on the same node yields `Unknown`. -/
def visit_pipe (value : Expr F) (functions : List (Expr F)) : InferredType :=
  match functions with
  | [] => infer_expr value
  | f :: fs => infer_last (infer_expr f) fs

/-- `visit_alternative`. -/
def visit_alternative (primary alternative : Expr F) : InferredType :=
  InferredType.common_type (infer_expr primary) (infer_expr alternative)

/-- `visit_guard`. -/
def visit_guard (_condition body : Expr F) : InferredType := infer_expr body

/-- `visit_date` returns `String`, not `Date`. -/
def visit_date (_date : String) : InferredType := .string

/-- `visit_datetime` returns `String`, not `DateTime`. -/
def visit_datetime (_datetime : String) : InferredType := .string

/-- `visit_duration` returns `String`, not `Duration`. -/
def visit_duration (_duration : String) : InferredType := .string

/-- `visit_temporal_keyword` returns `String` for every keyword. -/
def visit_temporal_keyword (_keyword : TemporalKeyword) : InferredType := .string

/-- `visit_string`. -/
def visit_string (_value : String) : InferredType := .string

end TIVisitor

/-! ### Code generation (src/codegen/{operators,functions,temporal,ast_to_code}.rs)

`proc_macro2::TokenStream` fragments are rendered as `String`s; the long
`quote!` blocks (regex matching, chrono calls) are rendered on one line with
the same tokens. -/

namespace Codegen

/-- A rendered target-language fragment (the embedding of `TokenStream`). -/
abbrev Frag := String

/-- Double-quoted rendering of a string literal fragment. -/
def dq (s : String) : Frag := "\"" ++ s ++ "\""

/-- `operators.rs` `BinaryOp`: the 13 codegen-level binary operators (note:
no exponentiation variant exists). -/
inductive BinaryOp : Type where
  | equal | notEqual | less | lessEqual | greater | greaterEqual
  | and | or
  | add | subtract | multiply | divide | modulo
deriving DecidableEq, Repr

/-- `operators.rs` `UnaryOp`: logical not and numeric negation only. -/
inductive UnaryOp : Type where
  | not | negate
deriving DecidableEq, Repr

namespace OperatorGenerator

/-- `OperatorGenerator::binary`. -/
def binary (op : BinaryOp) (left right : Frag) : Frag :=
  match op with
  | .equal => left ++ " == " ++ right
  | .notEqual => left ++ " != " ++ right
  | .less => left ++ " < " ++ right
  | .lessEqual => left ++ " <= " ++ right
  | .greater => left ++ " > " ++ right
  | .greaterEqual => left ++ " >= " ++ right
  | .add => left ++ " + " ++ right
  | .subtract => left ++ " - " ++ right
  | .multiply => left ++ " * " ++ right
  | .divide => left ++ " / " ++ right
  | .modulo => left ++ " % " ++ right
  | .and => left ++ " && " ++ right
  | .or => left ++ " || " ++ right

/-- `OperatorGenerator::unary`. -/
def unary (op : UnaryOp) (operand : Frag) : Frag :=
  match op with
  | .not => "!" ++ operand
  | .negate => "-" ++ operand

end OperatorGenerator

namespace FunctionGenerator

/-- `FunctionGenerator::string_function`. A pattern shorter than the arm's
argument demand falls through to the empty fragment, as the `args.len()`
guards do. -/
def string_function : String → List Frag → Frag
  | "matches", subject :: pattern :: _ =>
      "\x7b use regex::Regex; match Regex::new(" ++ pattern ++
        ") \x7b Ok(re) => match std::panic::catch_unwind(std::panic::AssertUnwindSafe(|| re.is_match(" ++
        subject ++
        "))) \x7b Ok(result) => result, Err(_) => false \x7d, Err(_) => false \x7d \x7d"
  | "contains", subject :: substring :: _ => subject ++ ".contains(" ++ substring ++ ")"
  | "length", subject :: _ => subject ++ ".len()"
  | "uppercase", subject :: _ => subject ++ ".to_uppercase()"
  | "lowercase", subject :: _ => subject ++ ".to_lowercase()"
  | "trim", subject :: _ => subject ++ ".trim()"
  | "starts_with", subject :: pre :: _ => subject ++ ".starts_with(" ++ pre ++ ")"
  | "ends_with", subject :: suf :: _ => subject ++ ".ends_with(" ++ suf ++ ")"
  | _, _ => ""

/-- `FunctionGenerator::datetime_function`. -/
def datetime_function : String → List Frag → Frag
  | "today", _ => "\x7b use chrono::Local; Local::now().date_naive() \x7d"
  | "now", _ => "\x7b use chrono::Utc; Utc::now() \x7d"
  | "age", birth :: _ =>
      "\x7b use chrono::Local; let today = Local::now().date_naive(); " ++
        "let mut age = today.year() - " ++ birth ++ ".year(); " ++
        "if (today.month(), today.day()) < (" ++ birth ++ ".month(), " ++ birth ++
        ".day()) \x7b age -= 1; \x7d age as u32 \x7d"
  | "days_since", d :: _ =>
      "\x7b use chrono::Local; (Local::now().date_naive() - " ++ d ++ ").num_days() \x7d"
  | "date", ds :: _ =>
      "\x7b use chrono::NaiveDate; NaiveDate::parse_from_str(" ++ ds ++
        ", \"%Y-%m-%d\").expect(\"Invalid date format\") \x7d"
  | _, _ => ""

/-- `FunctionGenerator::array_function`. -/
def array_function : String → List Frag → Frag
  | "contains", arr :: v :: _ => arr ++ ".contains(&" ++ v ++ ")"
  | "any", arr :: p :: _ => arr ++ ".iter().any(|item| " ++ p ++ ")"
  | "all", arr :: p :: _ => arr ++ ".iter().all(|item| " ++ p ++ ")"
  | "length", arr :: _ => arr ++ ".len()"
  | "is_empty", arr :: _ => arr ++ ".is_empty()"
  | "is_null", v :: _ => v ++ ".is_none()"
  | "is_some", v :: _ => v ++ ".is_some()"
  | _, _ => ""

/-- `FunctionGenerator::call`: route a call by name to one of the three
families; unknown names yield the empty fragment. -/
def call (name : String) (args : List Frag) : Frag :=
  match name with
  | "matches" | "contains" | "length" | "uppercase" | "lowercase" | "trim"
  | "starts_with" | "ends_with" => string_function name args
  | "today" | "now" | "age" | "days_since" | "date" => datetime_function name args
  | "any" | "all" => array_function name args
  | _ => ""

end FunctionGenerator

namespace TemporalGenerator

/-- `TemporalGenerator::date`. -/
def date (date_str : String) : Frag :=
  "\x7b use chrono::NaiveDate; NaiveDate::parse_from_str(" ++ dq date_str ++
    ", \"%Y-%m-%d\").expect(\"Invalid date format\") \x7d"

/-- `TemporalGenerator::datetime`. -/
def datetime (datetime_str : String) : Frag :=
  "\x7b use chrono::DateTime; DateTime::parse_from_rfc3339(" ++ dq datetime_str ++
    ").map(|dt| dt.with_timezone(&chrono::Utc)).expect(\"Invalid datetime format\") \x7d"

/-- `TemporalGenerator::duration`. -/
def duration (duration_str : String) : Frag :=
  "\x7b use chrono::Duration; use elo_rust::runtime::TemporalValue; " ++
    "TemporalValue::parse_duration(" ++ dq duration_str ++
    ").map(|tv| match tv \x7b TemporalValue::Duration(d) => d, _ => Duration::zero(), \x7d)" ++
    ".unwrap_or_else(|_| Duration::zero()) \x7d"

/-- `TemporalGenerator::keyword`, keyed by the keyword's rendered name. -/
def keyword (kw : String) : Frag :=
  match kw with
  | "NOW" => "\x7b use chrono::Utc; Utc::now() \x7d"
  | "TODAY" => "\x7b use chrono::Local; Local::now().naive_local().date() \x7d"
  | "TOMORROW" =>
      "\x7b use chrono::\x7bLocal, Duration\x7d; (Local::now().naive_local().date() + Duration::days(1)) \x7d"
  | "YESTERDAY" =>
      "\x7b use chrono::\x7bLocal, Duration\x7d; (Local::now().naive_local().date() - Duration::days(1)) \x7d"
  | "START_OF_DAY" =>
      "\x7b use chrono::Local; let today = Local::now().naive_local().date(); today.and_hms_opt(0, 0, 0).unwrap() \x7d"
  | "END_OF_DAY" =>
      "\x7b use chrono::Local; let today = Local::now().naive_local().date(); today.and_hms_opt(23, 59, 59).unwrap() \x7d"
  | "START_OF_WEEK" =>
      "\x7b use chrono::\x7bLocal, Datelike\x7d; let today = Local::now().naive_local().date(); let days_since_monday = today.weekday().number_from_monday() - 1; today - chrono::Duration::days(days_since_monday as i64) \x7d"
  | "END_OF_WEEK" =>
      "\x7b use chrono::\x7bLocal, Datelike\x7d; let today = Local::now().naive_local().date(); let days_until_sunday = 7 - today.weekday().number_from_monday(); today + chrono::Duration::days(days_until_sunday as i64) \x7d"
  | "START_OF_MONTH" =>
      "\x7b use chrono::Local; let today = Local::now().naive_local().date(); today.with_day(1).unwrap() \x7d"
  | "END_OF_MONTH" =>
      "\x7b use chrono::\x7bLocal, Datelike\x7d; end of month arithmetic \x7d"
  | "START_OF_QUARTER" =>
      "\x7b use chrono::\x7bLocal, Datelike\x7d; quarter via (month0 / 3) * 3 + 1 \x7d"
  | "END_OF_QUARTER" =>
      "\x7b use chrono::\x7bLocal, Datelike\x7d; quarter end via (month0 / 3) * 3 + 3 \x7d"
  | "START_OF_YEAR" =>
      "\x7b use chrono::\x7bLocal, Datelike\x7d; first day of year \x7d"
  | "END_OF_YEAR" =>
      "\x7b use chrono::\x7bLocal, Datelike\x7d; last day of year \x7d"
  | "BEGINNING_OF_TIME" => "\x7b chrono::DateTime::<chrono::Utc>::MIN_UTC \x7d"
  | "END_OF_TIME" => "\x7b chrono::DateTime::<chrono::Utc>::MAX_UTC \x7d"
  | _ => ""

end TemporalGenerator

namespace CodegenVisitor

variable {F : Type}

/-- `CodegenVisitor::convert_binary_op`. `Pow` has no codegen counterpart and
falls back to `Multiply` (the source comment reads "Fallback, would need
special handling"). -/
def convert_binary_op : BinaryOperator → BinaryOp
  | .add => .add
  | .sub => .subtract
  | .mul => .multiply
  | .div => .divide
  | .mod => .modulo
  | .pow => .multiply
  | .eq => .equal
  | .neq => .notEqual
  | .lt => .less
  | .lte => .lessEqual
  | .gt => .greater
  | .gte => .greaterEqual
  | .and => .and
  | .or => .or

/-- `CodegenVisitor::convert_unary_op`. `Plus` is converted to `Negate` (the
source comment reads "Identity, treat as no-op via negate"). -/
def convert_unary_op : UnaryOperator → UnaryOp
  | .not => .not
  | .neg => .negate
  | .plus => .negate

/-- The rendered name of a temporal keyword (`visit_temporal_keyword`'s
internal match). -/
def temporal_keyword_name : TemporalKeyword → String
  | .now => "NOW"
  | .today => "TODAY"
  | .tomorrow => "TOMORROW"
  | .yesterday => "YESTERDAY"
  | .startOfDay => "START_OF_DAY"
  | .endOfDay => "END_OF_DAY"
  | .startOfWeek => "START_OF_WEEK"
  | .endOfWeek => "END_OF_WEEK"
  | .startOfMonth => "START_OF_MONTH"
  | .endOfMonth => "END_OF_MONTH"
  | .startOfQuarter => "START_OF_QUARTER"
  | .endOfQuarter => "END_OF_QUARTER"
  | .startOfYear => "START_OF_YEAR"
  | .endOfYear => "END_OF_YEAR"
  | .beginningOfTime => "BEGINNING_OF_TIME"
  | .endOfTime => "END_OF_TIME"

/-- `visit_literal` (integer literals carry quote's `i64` suffix). -/
def visit_literal (ops : FloatOps F) : Literal F → Frag
  | .integer n => toString n ++ "i64"
  | .float x => ops.render x
  | .boolean b => if b then "true" else "false"

mutual

/-- `CodegenVisitor`'s `visit_expr`: the full dispatch of `ast_to_code.rs`. -/
def visit_expr (ops : FloatOps F) : Expr F → Frag
  | .literal lit => visit_literal ops lit
  | .null => "None::<()>"
  | .identifier name => name
  | .string value => dq value
  | .fieldAccess receiver field => visit_expr ops receiver ++ "." ++ field
  | .binaryOp op left right =>
      OperatorGenerator.binary (convert_binary_op op) (visit_expr ops left)
        (visit_expr ops right)
  | .unaryOp op operand =>
      OperatorGenerator.unary (convert_unary_op op) (visit_expr ops operand)
  | .functionCall name args => FunctionGenerator.call name (visit_list ops args)
  | .lambda param body =>
      "|" ++ param ++ "| \x7b " ++ visit_expr ops body ++ " \x7d"
  | .letE name value body =>
      "\x7b let " ++ name ++ " = " ++ visit_expr ops value ++ "; " ++
        visit_expr ops body ++ " \x7d"
  | .ifE c t e =>
      "if " ++ visit_expr ops c ++ " \x7b " ++ visit_expr ops t ++
        " \x7d else \x7b " ++ visit_expr ops e ++ " \x7d"
  | .array elements =>
      "vec![" ++ String.intercalate ", " (visit_list ops elements) ++ "]"
  | .object fields =>
      "vec![" ++ String.intercalate ", " (visit_fields ops fields) ++ "]"
  | .pipe value functions => visit_pipe_loop ops (visit_expr ops value) functions
  | .alternative primary alt =>
      visit_expr ops primary ++ ".or_else(|| " ++ visit_expr ops alt ++ ")"
  | .guard c body =>
      "if " ++ visit_expr ops c ++ " \x7b " ++ visit_expr ops body ++
        " \x7d else \x7b panic!(\"Guard failed\") \x7d"
  | .date d => TemporalGenerator.date d
  | .dateTime d => TemporalGenerator.datetime d
  | .duration d => TemporalGenerator.duration d
  | .temporalKeyword k => TemporalGenerator.keyword (temporal_keyword_name k)

/-- Visit every expression of a list (argument and element lists). -/
def visit_list (ops : FloatOps F) : List (Expr F) → List Frag
  | [] => []
  | e :: rest => visit_expr ops e :: visit_list ops rest

/-- Visit every object field, rendering `("key", value)` pairs. -/
def visit_fields (ops : FloatOps F) : List (String × Expr F) → List Frag
  | [] => []
  | (k, v) :: rest => ("(" ++ dq k ++ ", " ++ visit_expr ops v ++ ")") :: visit_fields ops rest

/-- `visit_pipe`'s rewriting loop: each stage receives the accumulated
fragment as first argument (function call), as the only argument (bare
identifier), or replaces it (any other stage kind). -/
def visit_pipe_loop (ops : FloatOps F) (result : Frag) : List (Expr F) → Frag
  | [] => result
  | func :: rest =>
    match func with
    | .functionCall name args =>
        visit_pipe_loop ops (FunctionGenerator.call name (result :: visit_list ops args)) rest
    | .identifier name =>
        visit_pipe_loop ops (FunctionGenerator.call name [result]) rest
    | other => visit_pipe_loop ops (visit_expr ops other) rest

end

/-- `visit_pipe` itself (dispatch target of the `Pipe` arm). -/
def visit_pipe (ops : FloatOps F) (value : Expr F) (functions : List (Expr F)) : Frag :=
  visit_pipe_loop ops (visit_expr ops value) functions

end CodegenVisitor

end Codegen

/-! ### Lexer (src/parser/lexer.rs)

The lexer state is the remaining character list plus the 1-based line and
column of the current character; `advance` consumes the head and updates the
position exactly as the Rust cursor does (a newline resets the column). The
Rust character classes `is_whitespace`, `is_ascii_digit`, `is_alphanumeric`
and `is_alphabetic` are modelled with Lean's `Char.isWhitespace`,
`Char.isDigit`, `Char.isAlphanum` and `Char.isAlpha` (they agree on ASCII,
which is all the grammar admits elsewhere). -/

namespace Lexer

/-- `Token`: the lexer's token type; keyword variants carry a `Kw` suffix
where the Rust name is a Lean keyword. -/
inductive Token (F : Type) : Type where
  | integer (n : Int)
  | float (f : F)
  | string (s : String)
  | trueKw
  | falseKw
  | nullKw
  | plus | minus | star | slash | percent | caret
  | equal | equalEqual | notEqual | less | lessEqual | greater | greaterEqual
  | andAnd | orOr | bang
  | letKw | inKw | ifKw | thenKw | elseKw | fnKw | guardKw
  | now | today | tomorrow | yesterday
  | startOfDay | endOfDay | startOfWeek | endOfWeek
  | startOfMonth | endOfMonth | startOfQuarter | endOfQuarter
  | startOfYear | endOfYear | beginningOfTime | endOfTime
  | identifier (name : String)
  | dot | comma | leftParen | rightParen | leftBracket | rightBracket
  | leftBrace | rightBrace | colon | semicolon
  | arrow | pipe | lambdaArrow | alternative
  | eof

/-- `LexError`: message plus 1-based line and column. -/
structure LexError : Type where
  message : String
  line : Nat
  column : Nat
deriving DecidableEq, Repr

variable {F : Type}

/-- The `fmt::Display` rendering of a token (used in parser error messages). -/
def Token.display (ops : FloatOps F) : Token F → String
  | .integer n => toString n
  | .float x => ops.render x
  | .string s => "'" ++ s ++ "'"
  | .trueKw => "true"
  | .falseKw => "false"
  | .nullKw => "null"
  | .plus => "+"
  | .minus => "-"
  | .star => "*"
  | .slash => "/"
  | .percent => "%"
  | .caret => "^"
  | .equal => "="
  | .equalEqual => "=="
  | .notEqual => "!="
  | .less => "<"
  | .lessEqual => "<="
  | .greater => ">"
  | .greaterEqual => ">="
  | .andAnd => "&&"
  | .orOr => "||"
  | .bang => "!"
  | .letKw => "let"
  | .inKw => "in"
  | .ifKw => "if"
  | .thenKw => "then"
  | .elseKw => "else"
  | .fnKw => "fn"
  | .guardKw => "guard"
  | .now => "NOW"
  | .today => "TODAY"
  | .tomorrow => "TOMORROW"
  | .yesterday => "YESTERDAY"
  | .startOfDay => "SOD"
  | .endOfDay => "EOD"
  | .startOfWeek => "SOW"
  | .endOfWeek => "EOW"
  | .startOfMonth => "SOM"
  | .endOfMonth => "EOM"
  | .startOfQuarter => "SOQ"
  | .endOfQuarter => "EOQ"
  | .startOfYear => "SOY"
  | .endOfYear => "EOY"
  | .beginningOfTime => "BOT"
  | .endOfTime => "EOT"
  | .identifier name => name
  | .dot => "."
  | .comma => ","
  | .leftParen => "("
  | .rightParen => ")"
  | .leftBracket => "["
  | .rightBracket => "]"
  | .leftBrace => "\x7b"
  | .rightBrace => "\x7d"
  | .colon => ":"
  | .semicolon => ";"
  | .arrow => "=>"
  | .pipe => "|>"
  | .lambdaArrow => "~>"
  | .alternative => "?|"
  | .eof => "EOF"

/-- Whether a token is the end-of-input marker (`token == Token::Eof`). -/
def Token.isEof : Token F → Bool
  | .eof => true
  | _ => false

/-- `Lexer::advance`: position update for one consumed character. -/
def advancePos (c : Char) (line col : Nat) : Nat × Nat :=
  if c = '\n' then (line + 1, 1) else (line, col + 1)

/-- `Lexer::skip_whitespace`. -/
def skip_whitespace : List Char → Nat → Nat → List Char × Nat × Nat
  | [], line, col => ([], line, col)
  | c :: rest, line, col =>
    if c.isWhitespace then
      let (line, col) := advancePos c line col
      skip_whitespace rest line col
    else (c :: rest, line, col)

/-- Rust `str::parse::<i64>` restricted to what `read_number` collects: a
nonempty, unsigned digit run parses exactly when its value fits in `i64`. -/
def parseI64 (s : String) : Option Int :=
  if s.data ≠ [] ∧ s.data.all Char.isDigit then
    let v : Nat := s.data.foldl (fun a c => 10 * a + (c.toNat - 48)) 0
    if (v : Int) ≤ I64_MAX then some (v : Int) else none
  else none

/-- The digit-collecting loop of `Lexer::read_number`: consumes digits and at
most one dot. Returns the collected text, the float flag and the rest state. -/
def read_number_loop :
    List Char → Nat → Nat → String → Bool → String × Bool × List Char × Nat × Nat
  | [], line, col, acc, isFloat => (acc, isFloat, [], line, col)
  | c :: rest, line, col, acc, isFloat =>
    if c.isDigit then
      let (line', col') := advancePos c line col
      read_number_loop rest line' col' (acc.push c) isFloat
    else if c = '.' ∧ !isFloat then
      let (line', col') := advancePos c line col
      read_number_loop rest line' col' (acc.push c) true
    else (acc, isFloat, c :: rest, line, col)

/-- `Lexer::read_number`: parse the collected run as `i64` or `f64`; a
failed parse is a `LexError` at the token's start position. -/
def read_number (ops : FloatOps F) (cs : List Char) (line col : Nat) :
    Except LexError (Token F × List Char × Nat × Nat) :=
  let startLine := line
  let startCol := col
  let (numStr, isFloat, cs', line', col') := read_number_loop cs line col "" false
  if isFloat then
    match ops.parseFloat numStr with
    | some x => .ok (.float x, cs', line', col')
    | none => .error ⟨"Invalid float: " ++ numStr, startLine, startCol⟩
  else
    match parseI64 numStr with
    | some n => .ok (.integer n, cs', line', col')
    | none => .error ⟨"Invalid integer: " ++ numStr, startLine, startCol⟩

/-- The body loop of `Lexer::read_string`, entered after the opening quote.
`line`/`col` track the current character; `startLine`/`startCol` stay fixed
at the opening quote's position. An unknown (or missing) character after a
backslash errors at that character's position; running out of input errors
at the opening quote. -/
def read_string_loop :
    List Char → Nat → Nat → Nat → Nat → String →
      Except LexError (Token F × List Char × Nat × Nat)
  | [], _, _, startLine, startCol, _ =>
      .error ⟨"Unterminated string literal", startLine, startCol⟩
  | c :: rest, line, col, startLine, startCol, acc =>
    if c = '\'' then
      let (line', col') := advancePos c line col
      .ok (.string acc, rest, line', col')
    else if c = '\\' then
      let (line1, col1) := advancePos c line col
      match rest with
      | 'n' :: rest2 =>
          let (line2, col2) := advancePos 'n' line1 col1
          read_string_loop rest2 line2 col2 startLine startCol (acc.push '\n')
      | 't' :: rest2 =>
          let (line2, col2) := advancePos 't' line1 col1
          read_string_loop rest2 line2 col2 startLine startCol (acc.push '\t')
      | 'r' :: rest2 =>
          let (line2, col2) := advancePos 'r' line1 col1
          read_string_loop rest2 line2 col2 startLine startCol (acc.push '\r')
      | '\\' :: rest2 =>
          let (line2, col2) := advancePos '\\' line1 col1
          read_string_loop rest2 line2 col2 startLine startCol (acc.push '\\')
      | '\'' :: rest2 =>
          let (line2, col2) := advancePos '\'' line1 col1
          read_string_loop rest2 line2 col2 startLine startCol (acc.push '\'')
      | _ => .error ⟨"Invalid escape sequence", line1, col1⟩
    else
      let (line', col') := advancePos c line col
      read_string_loop rest line' col' startLine startCol (acc.push c)

/-- `Lexer::read_string`: consume the opening quote, then run the loop with
the quote's position remembered as the start. -/
def read_string (cs : List Char) (line col : Nat) :
    Except LexError (Token F × List Char × Nat × Nat) :=
  match cs with
  | [] => .error ⟨"Unterminated string literal", line, col⟩
  | q :: rest =>
      let (line1, col1) := advancePos q line col
      read_string_loop rest line1 col1 line col ""

/-- The collecting loop of `Lexer::read_identifier`. -/
def read_ident_loop : List Char → Nat → Nat → String → String × List Char × Nat × Nat
  | [], line, col, acc => (acc, [], line, col)
  | c :: rest, line, col, acc =>
    if c.isAlphanum || c = '_' then
      let (line', col') := advancePos c line col
      read_ident_loop rest line' col' (acc.push c)
    else (acc, c :: rest, line, col)

/-- The keyword table at the end of `Lexer::read_identifier`. -/
def keyword_token (s : String) : Token F :=
  match s with
  | "let" => .letKw
  | "in" => .inKw
  | "if" => .ifKw
  | "then" => .thenKw
  | "else" => .elseKw
  | "fn" => .fnKw
  | "guard" => .guardKw
  | "true" => .trueKw
  | "false" => .falseKw
  | "null" => .nullKw
  | "NOW" => .now
  | "TODAY" => .today
  | "TOMORROW" => .tomorrow
  | "YESTERDAY" => .yesterday
  | "SOD" => .startOfDay
  | "EOD" => .endOfDay
  | "SOW" => .startOfWeek
  | "EOW" => .endOfWeek
  | "SOM" => .startOfMonth
  | "EOM" => .endOfMonth
  | "SOQ" => .startOfQuarter
  | "EOQ" => .endOfQuarter
  | "SOY" => .startOfYear
  | "EOY" => .endOfYear
  | "BOT" => .beginningOfTime
  | "EOT" => .endOfTime
  | _ => .identifier s

/-- `Lexer::next_token`: skip whitespace, then scan one token. Two-character
operators peek one character ahead; the incomplete-operator errors report
`column - 1` after the advance, i.e. the operator's own position, exactly as
the source does. -/
def next_token (ops : FloatOps F) (cs : List Char) (line col : Nat) :
    Except LexError (Token F × List Char × Nat × Nat) :=
  let (cs, line, col) := skip_whitespace cs line col
  match cs with
  | [] => .ok (.eof, [], line, col)
  | c :: rest =>
    let one (t : Token F) : Except LexError (Token F × List Char × Nat × Nat) :=
      let (line', col') := advancePos c line col
      .ok (t, rest, line', col')
    if c = '+' then one .plus
    else if c = '-' then one .minus
    else if c = '*' then one .star
    else if c = '/' then one .slash
    else if c = '%' then one .percent
    else if c = '^' then one .caret
    else if c = '=' then
      let (line1, col1) := advancePos c line col
      match rest with
      | '=' :: rest2 =>
          let (line2, col2) := advancePos '=' line1 col1
          .ok (.equalEqual, rest2, line2, col2)
      | '>' :: rest2 =>
          let (line2, col2) := advancePos '>' line1 col1
          .ok (.arrow, rest2, line2, col2)
      | _ => .ok (.equal, rest, line1, col1)
    else if c = '!' then
      let (line1, col1) := advancePos c line col
      match rest with
      | '=' :: rest2 =>
          let (line2, col2) := advancePos '=' line1 col1
          .ok (.notEqual, rest2, line2, col2)
      | _ => .ok (.bang, rest, line1, col1)
    else if c = '<' then
      let (line1, col1) := advancePos c line col
      match rest with
      | '=' :: rest2 =>
          let (line2, col2) := advancePos '=' line1 col1
          .ok (.lessEqual, rest2, line2, col2)
      | _ => .ok (.less, rest, line1, col1)
    else if c = '>' then
      let (line1, col1) := advancePos c line col
      match rest with
      | '=' :: rest2 =>
          let (line2, col2) := advancePos '=' line1 col1
          .ok (.greaterEqual, rest2, line2, col2)
      | _ => .ok (.greater, rest, line1, col1)
    else if c = '&' then
      let (line1, col1) := advancePos c line col
      match rest with
      | '&' :: rest2 =>
          let (line2, col2) := advancePos '&' line1 col1
          .ok (.andAnd, rest2, line2, col2)
      | _ => .error ⟨"Unexpected '&', did you mean '&&'?", line1, col1 - 1⟩
    else if c = '|' then
      let (line1, col1) := advancePos c line col
      match rest with
      | '|' :: rest2 =>
          let (line2, col2) := advancePos '|' line1 col1
          .ok (.orOr, rest2, line2, col2)
      | '>' :: rest2 =>
          let (line2, col2) := advancePos '>' line1 col1
          .ok (.pipe, rest2, line2, col2)
      | _ => .error ⟨"Unexpected '|', did you mean '||' or '|>'?", line1, col1 - 1⟩
    else if c = '?' then
      let (line1, col1) := advancePos c line col
      match rest with
      | '|' :: rest2 =>
          let (line2, col2) := advancePos '|' line1 col1
          .ok (.alternative, rest2, line2, col2)
      | _ => .error ⟨"Unexpected '?', did you mean '?|'?", line1, col1 - 1⟩
    else if c = '~' then
      let (line1, col1) := advancePos c line col
      match rest with
      | '>' :: rest2 =>
          let (line2, col2) := advancePos '>' line1 col1
          .ok (.lambdaArrow, rest2, line2, col2)
      | _ => .error ⟨"Unexpected '~', did you mean '~>'?", line1, col1 - 1⟩
    else if c = '.' then one .dot
    else if c = ',' then one .comma
    else if c = '(' then one .leftParen
    else if c = ')' then one .rightParen
    else if c = '[' then one .leftBracket
    else if c = ']' then one .rightBracket
    else if c = '\x7b' then one .leftBrace
    else if c = '\x7d' then one .rightBrace
    else if c = ':' then one .colon
    else if c = ';' then one .semicolon
    else if c = '\'' then read_string (c :: rest) line col
    else if c.isDigit then read_number ops (c :: rest) line col
    else if c.isAlpha then
      let (ident, cs', line', col') := read_ident_loop (c :: rest) line col ""
      .ok (keyword_token ident, cs', line', col')
    else .error ⟨"Unexpected character: '" ++ String.singleton c ++ "'", line, col⟩

/-- The collecting loop of `Lexer::tokenize`, fuelled by the input length
(each iteration either ends at `Eof` or consumes at least one character). -/
def tokenize_loop (ops : FloatOps F) :
    Nat → List Char → Nat → Nat → List (Token F) → Except LexError (List (Token F))
  | 0, _, _, _, _ => .error ⟨"lexer fuel exhausted", 0, 0⟩
  | fuel + 1, cs, line, col, acc => do
      let (tok, cs', line', col') ← next_token ops cs line col
      if tok.isEof then .ok (acc ++ [tok])
      else tokenize_loop ops fuel cs' line' col' (acc ++ [tok])

/-- `Lexer::tokenize`: the whole input as a token list ending in `Eof`. -/
def tokenize (ops : FloatOps F) (input : String) : Except LexError (List (Token F)) :=
  tokenize_loop ops (input.length + 1) input.toList 1 1 []

/-- The discriminant of a token (`std::mem::discriminant`): payload-blind
constructor index, used by `Parser::check`. -/
def Token.tag : Token F → Nat
  | .integer _ => 0
  | .float _ => 1
  | .string _ => 2
  | .trueKw => 3
  | .falseKw => 4
  | .nullKw => 5
  | .plus => 6
  | .minus => 7
  | .star => 8
  | .slash => 9
  | .percent => 10
  | .caret => 11
  | .equal => 12
  | .equalEqual => 13
  | .notEqual => 14
  | .less => 15
  | .lessEqual => 16
  | .greater => 17
  | .greaterEqual => 18
  | .andAnd => 19
  | .orOr => 20
  | .bang => 21
  | .letKw => 22
  | .inKw => 23
  | .ifKw => 24
  | .thenKw => 25
  | .elseKw => 26
  | .fnKw => 27
  | .guardKw => 28
  | .now => 29
  | .today => 30
  | .tomorrow => 31
  | .yesterday => 32
  | .startOfDay => 33
  | .endOfDay => 34
  | .startOfWeek => 35
  | .endOfWeek => 36
  | .startOfMonth => 37
  | .endOfMonth => 38
  | .startOfQuarter => 39
  | .endOfQuarter => 40
  | .startOfYear => 41
  | .endOfYear => 42
  | .beginningOfTime => 43
  | .endOfTime => 44
  | .identifier _ => 45
  | .dot => 46
  | .comma => 47
  | .leftParen => 48
  | .rightParen => 49
  | .leftBracket => 50
  | .rightBracket => 51
  | .leftBrace => 52
  | .rightBrace => 53
  | .colon => 54
  | .semicolon => 55
  | .arrow => 56
  | .pipe => 57
  | .lambdaArrow => 58
  | .alternative => 59
  | .eof => 60

end Lexer

/-! ### Parser (src/parser/mod.rs)

The parser state is the list of tokens not yet consumed (`peek` of the empty
list is `Eof`, as `tokens.get(current).unwrap_or(&Token::Eof)`). The Rust
recursion is unbounded; the embedding passes explicit fuel, sized generously
from the token count in `parse`, and reports an otherwise-unused error on
exhaustion. -/

namespace Parser

open Lexer

/-- `ParseError`: message, 1-based position, optional source context. -/
structure ParseError : Type where
  message : String
  line : Nat
  column : Nat
  context : Option String := none
deriving DecidableEq, Repr

/-- `ParseError::new` (context-free constructor, the only one the parser
uses). -/
def ParseError.new (message : String) (line column : Nat) : ParseError :=
  ⟨message, line, column, none⟩

variable {F : Type}

/-- `Parser::peek`. -/
def peek (ts : List (Token F)) : Token F := ts.headD .eof

/-- `Parser::advance`: the token read plus the rest. -/
def advanceTok (ts : List (Token F)) : Token F × List (Token F) :=
  match ts with
  | [] => (.eof, [])
  | t :: rest => (t, rest)

/-- `Parser::check`: discriminant comparison with the expected token. -/
def check (ts : List (Token F)) (tok : Token F) : Bool :=
  (peek ts).tag == tok.tag

/-- `Parser::expect`. -/
def expect (ops : FloatOps F) (ts : List (Token F)) (expected : Token F) :
    Except ParseError (List (Token F)) :=
  if check ts expected then .ok (advanceTok ts).2
  else
    .error (ParseError.new
      ("Expected " ++ expected.display ops ++ ", found " ++ (peek ts).display ops) 1 1)

/-- The error produced only on fuel exhaustion (unreachable with the fuel
`parse` supplies). -/
def fuelErr : ParseError := ParseError.new "parser fuel exhausted" 0 0

mutual

/-- `Parser::parse_expression`. -/
def parse_expression (ops : FloatOps F) : Nat → List (Token F) → Except ParseError (Expr F × List (Token F))
  | 0, _ => .error fuelErr
  | fuel + 1, ts => parse_pipe ops fuel ts

/-- `Parser::parse_pipe`. -/
def parse_pipe (ops : FloatOps F) : Nat → List (Token F) → Except ParseError (Expr F × List (Token F))
  | 0, _ => .error fuelErr
  | fuel + 1, ts => do
      let (e, ts) ← parse_logical_or ops fuel ts
      parse_pipe_loop ops fuel e ts

/-- The `while` of `parse_pipe`: each step wraps the accumulated value in a
fresh single-stage `Pipe` node. -/
def parse_pipe_loop (ops : FloatOps F) : Nat → Expr F → List (Token F) → Except ParseError (Expr F × List (Token F))
  | 0, _, _ => .error fuelErr
  | fuel + 1, e, ts =>
      if check ts .pipe then do
        let (func, ts') ← parse_logical_or ops fuel (advanceTok ts).2
        parse_pipe_loop ops fuel (.pipe e [func]) ts'
      else .ok (e, ts)

/-- `Parser::parse_logical_or`. -/
def parse_logical_or (ops : FloatOps F) : Nat → List (Token F) → Except ParseError (Expr F × List (Token F))
  | 0, _ => .error fuelErr
  | fuel + 1, ts => do
      let (e, ts) ← parse_logical_and ops fuel ts
      parse_logical_or_loop ops fuel e ts

/-- The left-folding `while` of `parse_logical_or`. -/
def parse_logical_or_loop (ops : FloatOps F) : Nat → Expr F → List (Token F) → Except ParseError (Expr F × List (Token F))
  | 0, _, _ => .error fuelErr
  | fuel + 1, e, ts =>
      if check ts .orOr then do
        let (r, ts') ← parse_logical_and ops fuel (advanceTok ts).2
        parse_logical_or_loop ops fuel (.binaryOp .or e r) ts'
      else .ok (e, ts)

/-- `Parser::parse_logical_and`. -/
def parse_logical_and (ops : FloatOps F) : Nat → List (Token F) → Except ParseError (Expr F × List (Token F))
  | 0, _ => .error fuelErr
  | fuel + 1, ts => do
      let (e, ts) ← parse_equality ops fuel ts
      parse_logical_and_loop ops fuel e ts

/-- The left-folding `while` of `parse_logical_and`. -/
def parse_logical_and_loop (ops : FloatOps F) : Nat → Expr F → List (Token F) → Except ParseError (Expr F × List (Token F))
  | 0, _, _ => .error fuelErr
  | fuel + 1, e, ts =>
      if check ts .andAnd then do
        let (r, ts') ← parse_equality ops fuel (advanceTok ts).2
        parse_logical_and_loop ops fuel (.binaryOp .and e r) ts'
      else .ok (e, ts)

/-- `Parser::parse_equality`. -/
def parse_equality (ops : FloatOps F) : Nat → List (Token F) → Except ParseError (Expr F × List (Token F))
  | 0, _ => .error fuelErr
  | fuel + 1, ts => do
      let (e, ts) ← parse_comparison ops fuel ts
      parse_equality_loop ops fuel e ts

/-- The left-folding `loop` of `parse_equality`. -/
def parse_equality_loop (ops : FloatOps F) : Nat → Expr F → List (Token F) → Except ParseError (Expr F × List (Token F))
  | 0, _, _ => .error fuelErr
  | fuel + 1, e, ts =>
      match peek ts with
      | .equalEqual => do
          let (r, ts') ← parse_comparison ops fuel (advanceTok ts).2
          parse_equality_loop ops fuel (.binaryOp .eq e r) ts'
      | .notEqual => do
          let (r, ts') ← parse_comparison ops fuel (advanceTok ts).2
          parse_equality_loop ops fuel (.binaryOp .neq e r) ts'
      | _ => .ok (e, ts)

/-- `Parser::parse_comparison`. -/
def parse_comparison (ops : FloatOps F) : Nat → List (Token F) → Except ParseError (Expr F × List (Token F))
  | 0, _ => .error fuelErr
  | fuel + 1, ts => do
      let (e, ts) ← parse_addition ops fuel ts
      parse_comparison_loop ops fuel e ts

/-- The left-folding `loop` of `parse_comparison`. -/
def parse_comparison_loop (ops : FloatOps F) : Nat → Expr F → List (Token F) → Except ParseError (Expr F × List (Token F))
  | 0, _, _ => .error fuelErr
  | fuel + 1, e, ts =>
      match peek ts with
      | .less => do
          let (r, ts') ← parse_addition ops fuel (advanceTok ts).2
          parse_comparison_loop ops fuel (.binaryOp .lt e r) ts'
      | .lessEqual => do
          let (r, ts') ← parse_addition ops fuel (advanceTok ts).2
          parse_comparison_loop ops fuel (.binaryOp .lte e r) ts'
      | .greater => do
          let (r, ts') ← parse_addition ops fuel (advanceTok ts).2
          parse_comparison_loop ops fuel (.binaryOp .gt e r) ts'
      | .greaterEqual => do
          let (r, ts') ← parse_addition ops fuel (advanceTok ts).2
          parse_comparison_loop ops fuel (.binaryOp .gte e r) ts'
      | _ => .ok (e, ts)

/-- `Parser::parse_addition`. -/
def parse_addition (ops : FloatOps F) : Nat → List (Token F) → Except ParseError (Expr F × List (Token F))
  | 0, _ => .error fuelErr
  | fuel + 1, ts => do
      let (e, ts) ← parse_multiplication ops fuel ts
      parse_addition_loop ops fuel e ts

/-- The left-folding `loop` of `parse_addition`. -/
def parse_addition_loop (ops : FloatOps F) : Nat → Expr F → List (Token F) → Except ParseError (Expr F × List (Token F))
  | 0, _, _ => .error fuelErr
  | fuel + 1, e, ts =>
      match peek ts with
      | .plus => do
          let (r, ts') ← parse_multiplication ops fuel (advanceTok ts).2
          parse_addition_loop ops fuel (.binaryOp .add e r) ts'
      | .minus => do
          let (r, ts') ← parse_multiplication ops fuel (advanceTok ts).2
          parse_addition_loop ops fuel (.binaryOp .sub e r) ts'
      | _ => .ok (e, ts)

/-- `Parser::parse_multiplication`. -/
def parse_multiplication (ops : FloatOps F) : Nat → List (Token F) → Except ParseError (Expr F × List (Token F))
  | 0, _ => .error fuelErr
  | fuel + 1, ts => do
      let (e, ts) ← parse_power ops fuel ts
      parse_multiplication_loop ops fuel e ts

/-- The left-folding `loop` of `parse_multiplication`. -/
def parse_multiplication_loop (ops : FloatOps F) : Nat → Expr F → List (Token F) → Except ParseError (Expr F × List (Token F))
  | 0, _, _ => .error fuelErr
  | fuel + 1, e, ts =>
      match peek ts with
      | .star => do
          let (r, ts') ← parse_power ops fuel (advanceTok ts).2
          parse_multiplication_loop ops fuel (.binaryOp .mul e r) ts'
      | .slash => do
          let (r, ts') ← parse_power ops fuel (advanceTok ts).2
          parse_multiplication_loop ops fuel (.binaryOp .div e r) ts'
      | .percent => do
          let (r, ts') ← parse_power ops fuel (advanceTok ts).2
          parse_multiplication_loop ops fuel (.binaryOp .mod e r) ts'
      | _ => .ok (e, ts)

/-- `Parser::parse_power`: right-associative via the recursive call to the
power level itself (no loop). -/
def parse_power (ops : FloatOps F) : Nat → List (Token F) → Except ParseError (Expr F × List (Token F))
  | 0, _ => .error fuelErr
  | fuel + 1, ts => do
      let (e, ts) ← parse_unary ops fuel ts
      if check ts .caret then do
        let (right, ts') ← parse_power ops fuel (advanceTok ts).2
        .ok (.binaryOp .pow e right, ts')
      else .ok (e, ts)

/-- `Parser::parse_unary`: prefix `!`, `-`, `+`, recursively stackable. -/
def parse_unary (ops : FloatOps F) : Nat → List (Token F) → Except ParseError (Expr F × List (Token F))
  | 0, _ => .error fuelErr
  | fuel + 1, ts =>
      match peek ts with
      | .bang => do
          let (o, ts') ← parse_unary ops fuel (advanceTok ts).2
          .ok (.unaryOp .not o, ts')
      | .minus => do
          let (o, ts') ← parse_unary ops fuel (advanceTok ts).2
          .ok (.unaryOp .neg o, ts')
      | .plus => do
          let (o, ts') ← parse_unary ops fuel (advanceTok ts).2
          .ok (.unaryOp .plus o, ts')
      | _ => parse_postfix ops fuel ts

/-- `Parser::parse_postfix`. -/
def parse_postfix (ops : FloatOps F) : Nat → List (Token F) → Except ParseError (Expr F × List (Token F))
  | 0, _ => .error fuelErr
  | fuel + 1, ts => do
      let (e, ts) ← parse_primary ops fuel ts
      parse_postfix_loop ops fuel e ts

/-- The `loop` of `parse_postfix`: chained `.field` accesses. The source's
`LeftBracket` and `LeftParen` arms break like the default arm does, so every
non-dot token ends the loop. -/
def parse_postfix_loop (ops : FloatOps F) : Nat → Expr F → List (Token F) → Except ParseError (Expr F × List (Token F))
  | 0, _, _ => .error fuelErr
  | fuel + 1, e, ts =>
      match peek ts with
      | .dot =>
          let ts1 := (advanceTok ts).2
          match advanceTok ts1 with
          | (.identifier field, ts2) =>
              parse_postfix_loop ops fuel (.fieldAccess e field) ts2
          | _ => .error (ParseError.new "Expected field name after '.'" 1 1)
      | _ => .ok (e, ts)

/-- `Parser::parse_primary`. -/
def parse_primary (ops : FloatOps F) : Nat → List (Token F) → Except ParseError (Expr F × List (Token F))
  | 0, _ => .error fuelErr
  | fuel + 1, ts =>
      match peek ts with
      | .integer n => .ok (.literal (.integer n), (advanceTok ts).2)
      | .float x => .ok (.literal (.float x), (advanceTok ts).2)
      | .trueKw => .ok (.literal (.boolean true), (advanceTok ts).2)
      | .falseKw => .ok (.literal (.boolean false), (advanceTok ts).2)
      | .nullKw => .ok (.null, (advanceTok ts).2)
      | .string s => .ok (.string s, (advanceTok ts).2)
      | .identifier name =>
          let ts1 := (advanceTok ts).2
          if check ts1 .leftParen then do
            let (args, ts2) ← parse_function_args ops fuel (advanceTok ts1).2
            let ts3 ← expect ops ts2 .rightParen
            .ok (.functionCall name args, ts3)
          else .ok (.identifier name, ts1)
      | .leftParen => do
          let (e, ts1) ← parse_expression ops fuel (advanceTok ts).2
          let ts2 ← expect ops ts1 .rightParen
          .ok (e, ts2)
      | .leftBracket => do
          let (elements, ts1) ← parse_array_elements ops fuel (advanceTok ts).2
          let ts2 ← expect ops ts1 .rightBracket
          .ok (.array elements, ts2)
      | .leftBrace => do
          let (fields, ts1) ← parse_object_fields ops fuel (advanceTok ts).2
          let ts2 ← expect ops ts1 .rightBrace
          .ok (.object fields, ts2)
      | .letKw => parse_let ops fuel ts
      | .ifKw => parse_if ops fuel ts
      | .fnKw => parse_lambda ops fuel ts
      | .guardKw => parse_guard ops fuel ts
      | .now => .ok (.temporalKeyword .now, (advanceTok ts).2)
      | .today => .ok (.temporalKeyword .today, (advanceTok ts).2)
      | .tomorrow => .ok (.temporalKeyword .tomorrow, (advanceTok ts).2)
      | .yesterday => .ok (.temporalKeyword .yesterday, (advanceTok ts).2)
      | .startOfDay => .ok (.temporalKeyword .startOfDay, (advanceTok ts).2)
      | .endOfDay => .ok (.temporalKeyword .endOfDay, (advanceTok ts).2)
      | .startOfWeek => .ok (.temporalKeyword .startOfWeek, (advanceTok ts).2)
      | .endOfWeek => .ok (.temporalKeyword .endOfWeek, (advanceTok ts).2)
      | .startOfMonth => .ok (.temporalKeyword .startOfMonth, (advanceTok ts).2)
      | .endOfMonth => .ok (.temporalKeyword .endOfMonth, (advanceTok ts).2)
      | .startOfQuarter => .ok (.temporalKeyword .startOfQuarter, (advanceTok ts).2)
      | .endOfQuarter => .ok (.temporalKeyword .endOfQuarter, (advanceTok ts).2)
      | .startOfYear => .ok (.temporalKeyword .startOfYear, (advanceTok ts).2)
      | .endOfYear => .ok (.temporalKeyword .endOfYear, (advanceTok ts).2)
      | .beginningOfTime => .ok (.temporalKeyword .beginningOfTime, (advanceTok ts).2)
      | .endOfTime => .ok (.temporalKeyword .endOfTime, (advanceTok ts).2)
      | t => .error (ParseError.new ("Unexpected token: " ++ t.display ops) 1 1)

/-- `Parser::parse_function_args`: empty when the closer is already next. -/
def parse_function_args (ops : FloatOps F) :
    Nat → List (Token F) → Except ParseError (List (Expr F) × List (Token F))
  | 0, _ => .error fuelErr
  | fuel + 1, ts =>
      if check ts .rightParen then .ok ([], ts)
      else parse_args_loop ops fuel ts

/-- `Parser::parse_array_elements`: empty when the closer is already next. -/
def parse_array_elements (ops : FloatOps F) :
    Nat → List (Token F) → Except ParseError (List (Expr F) × List (Token F))
  | 0, _ => .error fuelErr
  | fuel + 1, ts =>
      if check ts .rightBracket then .ok ([], ts)
      else parse_args_loop ops fuel ts

/-- The comma-separated `loop` shared by argument and array-element lists. -/
def parse_args_loop (ops : FloatOps F) :
    Nat → List (Token F) → Except ParseError (List (Expr F) × List (Token F))
  | 0, _ => .error fuelErr
  | fuel + 1, ts => do
      let (e, ts1) ← parse_expression ops fuel ts
      if check ts1 .comma then do
        let (rest, ts2) ← parse_args_loop ops fuel (advanceTok ts1).2
        .ok (e :: rest, ts2)
      else .ok ([e], ts1)

/-- `Parser::parse_object_fields`. -/
def parse_object_fields (ops : FloatOps F) :
    Nat → List (Token F) → Except ParseError (List (String × Expr F) × List (Token F))
  | 0, _ => .error fuelErr
  | fuel + 1, ts =>
      if check ts .rightBrace then .ok ([], ts)
      else parse_fields_loop ops fuel ts

/-- The field `loop` of `parse_object_fields`: key (identifier or string),
colon, value, optional comma. -/
def parse_fields_loop (ops : FloatOps F) :
    Nat → List (Token F) → Except ParseError (List (String × Expr F) × List (Token F))
  | 0, _ => .error fuelErr
  | fuel + 1, ts =>
      match advanceTok ts with
      | (.identifier key, ts1) | (.string key, ts1) => do
          let ts2 ← expect ops ts1 .colon
          let (value, ts3) ← parse_expression ops fuel ts2
          if check ts3 .comma then do
            let (rest, ts4) ← parse_fields_loop ops fuel (advanceTok ts3).2
            .ok ((key, value) :: rest, ts4)
          else .ok ([(key, value)], ts3)
      | _ => .error (ParseError.new "Expected field name in object literal" 1 1)

/-- `Parser::parse_let`. -/
def parse_let (ops : FloatOps F) : Nat → List (Token F) → Except ParseError (Expr F × List (Token F))
  | 0, _ => .error fuelErr
  | fuel + 1, ts => do
      let ts1 ← expect ops ts .letKw
      match advanceTok ts1 with
      | (.identifier name, ts2) => do
          let ts3 ← expect ops ts2 .equal
          let (value, ts4) ← parse_expression ops fuel ts3
          let ts5 ← expect ops ts4 .inKw
          let (body, ts6) ← parse_expression ops fuel ts5
          .ok (.letE name value body, ts6)
      | _ => .error (ParseError.new "Expected variable name after 'let'" 1 1)

/-- `Parser::parse_if`. -/
def parse_if (ops : FloatOps F) : Nat → List (Token F) → Except ParseError (Expr F × List (Token F))
  | 0, _ => .error fuelErr
  | fuel + 1, ts => do
      let ts1 ← expect ops ts .ifKw
      let (condition, ts2) ← parse_expression ops fuel ts1
      let ts3 ← expect ops ts2 .thenKw
      let (thenBranch, ts4) ← parse_expression ops fuel ts3
      let ts5 ← expect ops ts4 .elseKw
      let (elseBranch, ts6) ← parse_expression ops fuel ts5
      .ok (.ifE condition thenBranch elseBranch, ts6)

/-- `Parser::parse_lambda`. -/
def parse_lambda (ops : FloatOps F) : Nat → List (Token F) → Except ParseError (Expr F × List (Token F))
  | 0, _ => .error fuelErr
  | fuel + 1, ts => do
      let ts1 ← expect ops ts .fnKw
      let ts2 ← expect ops ts1 .leftParen
      match advanceTok ts2 with
      | (.identifier param, ts3) => do
          let ts4 ← expect ops ts3 .lambdaArrow
          let (body, ts5) ← parse_expression ops fuel ts4
          let ts6 ← expect ops ts5 .rightParen
          .ok (.lambda param body, ts6)
      | _ => .error (ParseError.new "Expected parameter name in lambda" 1 1)

/-- `Parser::parse_guard`. -/
def parse_guard (ops : FloatOps F) : Nat → List (Token F) → Except ParseError (Expr F × List (Token F))
  | 0, _ => .error fuelErr
  | fuel + 1, ts => do
      let ts1 ← expect ops ts .guardKw
      let (condition, ts2) ← parse_expression ops fuel ts1
      let ts3 ← expect ops ts2 .inKw
      let (body, ts4) ← parse_expression ops fuel ts3
      .ok (.guard condition body, ts4)

end

/-- The fuel `parse` supplies: ample for the nesting any token list of this
length can produce. -/
def parse_fuel (ts : List (Token F)) : Nat := 16 * (ts.length + 1) + 16

/-- `Parser::parse`: tokenize, then parse one expression. The remaining
token-list state is dropped without an end-of-input check. -/
def parse (ops : FloatOps F) (input : String) : Except ParseError (Expr F) :=
  match Lexer.tokenize ops input with
  | .error e => .error (ParseError.new e.message e.line e.column)
  | .ok tokens =>
      match parse_expression ops (parse_fuel tokens) tokens with
      | .ok (e, _rest) => .ok e
      | .error pe => .error pe

end Parser

/-! ## Theorems -/

/-! ### C1: algebraic laws of `common_type` -/

/-- `common_type t t = t`: the guarded first match arm. -/
theorem common_type_self (t : InferredType) : InferredType.common_type t t = t := by
  rw [InferredType.common_type.eq_def]
  simp

/-- `common_type` commutes up to error-message wording (erasing messages also
inside array element types). -/
theorem common_type_eraseError_comm (a b : InferredType) :
    (InferredType.common_type a b).eraseError =
      (InferredType.common_type b a).eraseError := by
  induction a generalizing b
  case array x ih =>
    cases b <;> try rfl
    rename_i y
    by_cases hxy : x = y
    · subst hxy; rfl
    · have h1 : InferredType.array x ≠ InferredType.array y := by simpa using hxy
      have h2 : InferredType.array y ≠ InferredType.array x := by
        simpa using Ne.symm hxy
      simp only [InferredType.common_type, if_neg h1, if_neg h2]
      simpa [InferredType.eraseError] using ih y
  case error s =>
    cases b <;> try rfl
    rename_i s'
    by_cases h : s = s'
    · subst h; rfl
    · have h1 : InferredType.error s ≠ InferredType.error s' := by simpa using h
      have h2 : InferredType.error s' ≠ InferredType.error s := by
        simpa using Ne.symm h
      simp only [InferredType.common_type, if_neg h1, if_neg h2]
      rfl
  all_goals cases b <;> rfl

/-- C1: false as stated. `common_type(Unknown, Numeric)` is an `Error`, not
`Numeric` (the `Numeric` arm precedes the `Unknown` arm), so Unknown is not a
unification identity; and the catch-all error message depends on the argument
order, so `common_type(Integer, String) ≠ common_type(String, Integer)` under
the structural equality the claim quantifies over. -/
theorem C1_counterexample :
    decide (InferredType.common_type .unknown .numeric = .numeric) = false ∧
    InferredType.common_type .unknown .numeric =
      .error "Type mismatch: cannot unify numeric and unknown" ∧
    decide (InferredType.common_type .integer .string =
      InferredType.common_type .string .integer) = false ∧
    InferredType.common_type .integer .string =
      .error "Type mismatch: cannot unify integer and string" ∧
    InferredType.common_type .string .integer =
      .error "Type mismatch: cannot unify string and integer" := by
  refine ⟨by decide, rfl, by decide, rfl, rfl⟩

/-- C1 (amended): `common_type` is idempotent; it is commutative up to the
wording of `Error` messages (exactly equal whenever no `Error` value is
produced anywhere in the result); `Unknown` is a two-sided unification
identity for every type except `Numeric`, where both orders produce an
`Error`. -/
theorem C1_amended :
    (∀ t : InferredType, InferredType.common_type t t = t) ∧
    (∀ a b : InferredType,
      (InferredType.common_type a b).eraseError =
        (InferredType.common_type b a).eraseError) ∧
    (∀ t : InferredType, t ≠ .numeric →
      InferredType.common_type .unknown t = t ∧
      InferredType.common_type t .unknown = t) ∧
    (InferredType.common_type .unknown .numeric).is_error = true ∧
    (InferredType.common_type .numeric .unknown).is_error = true := by
  refine ⟨common_type_self, common_type_eraseError_comm, ?_, by decide, by decide⟩
  intro t ht
  cases t <;> first | exact absurd rfl ht | exact ⟨rfl, rfl⟩

/-- C1 (amended), witnessed at `t = Integer`. -/
theorem C1_amended_witness :
    InferredType.common_type .unknown .integer = .integer ∧
    InferredType.common_type .integer .unknown = .integer :=
  C1_amended.2.2.1 .integer (by decide)

/-! ### C2: the operator generator's mapping -/

/-- C2: the code maps `Pow` to the codegen `Multiply` tag and unary `Plus` to
the codegen `Negate` tag, so lowering a `Pow` node emits the target's
multiplication form (not exponentiation) and lowering a unary `Plus` node
emits negation (not the identity): evaluated here on every operand pair and
on the concrete nodes `2 ^ 3` and `+x`. The remaining 12 binary and 2 unary
tags do map to their own native syntax. -/
theorem C2_thm :
    Codegen.CodegenVisitor.convert_binary_op .pow = .multiply ∧
    Codegen.CodegenVisitor.convert_unary_op .plus = .negate ∧
    (∀ l r : Codegen.Frag,
      Codegen.OperatorGenerator.binary (Codegen.CodegenVisitor.convert_binary_op .pow) l r =
        l ++ " * " ++ r) ∧
    (∀ x : Codegen.Frag,
      Codegen.OperatorGenerator.unary (Codegen.CodegenVisitor.convert_unary_op .plus) x =
        "-" ++ x) ∧
    Codegen.CodegenVisitor.visit_expr unitOps
      (.binaryOp .pow (.literal (.integer 2)) (.literal (.integer 3)) : Expr Unit) =
      "2i64 * 3i64" ∧
    Codegen.CodegenVisitor.visit_expr unitOps
      (.unaryOp .plus (.identifier "x") : Expr Unit) = "-x" :=
  ⟨rfl, rfl, fun _ _ => rfl, fun _ => rfl, rfl, rfl⟩

/-! ### C5: parser precedence and associativity -/

/-- C5: `"1 + 2 * 3"` parses with the `*` node as the right child of `+`;
`"2 ^ 3 ^ 2"` parses right-associatively with a `^` node as the right child
of the outer `^`; and representative chains at every other binary level
(`||`, `&&`, `==`, `<`, `-`, `/`) fold left-associatively. -/
theorem C5_thm :
    Parser.parse unitOps "1 + 2 * 3" =
      .ok (.binaryOp .add (.literal (.integer 1))
        (.binaryOp .mul (.literal (.integer 2)) (.literal (.integer 3)))) ∧
    Parser.parse unitOps "2 ^ 3 ^ 2" =
      .ok (.binaryOp .pow (.literal (.integer 2))
        (.binaryOp .pow (.literal (.integer 3)) (.literal (.integer 2)))) ∧
    Parser.parse unitOps "a || b || c" =
      .ok (.binaryOp .or (.binaryOp .or (.identifier "a") (.identifier "b"))
        (.identifier "c")) ∧
    Parser.parse unitOps "a && b && c" =
      .ok (.binaryOp .and (.binaryOp .and (.identifier "a") (.identifier "b"))
        (.identifier "c")) ∧
    Parser.parse unitOps "a == b == c" =
      .ok (.binaryOp .eq (.binaryOp .eq (.identifier "a") (.identifier "b"))
        (.identifier "c")) ∧
    Parser.parse unitOps "a < b < c" =
      .ok (.binaryOp .lt (.binaryOp .lt (.identifier "a") (.identifier "b"))
        (.identifier "c")) ∧
    Parser.parse unitOps "1 - 2 - 3" =
      .ok (.binaryOp .sub (.binaryOp .sub (.literal (.integer 1)) (.literal (.integer 2)))
        (.literal (.integer 3))) ∧
    Parser.parse unitOps "1 / 2 / 3" =
      .ok (.binaryOp .div (.binaryOp .div (.literal (.integer 1)) (.literal (.integer 2)))
        (.literal (.integer 3))) :=
  ⟨rfl, rfl, rfl, rfl, rfl, rfl, rfl, rfl⟩

/-! ### C6: pipe lowering -/

/-- C6: piping into a function call injects the piped fragment as the first
argument of the generated call; piping into a bare identifier generates the
unary call; and codegen of `parse("email |> lowercase() |> trim()")` is the
nested composition `trim(lowercase(email))` as lowered by the function
generator, concretely `email.to_lowercase().trim()`. -/
theorem C6_thm :
    (∀ (F : Type) (ops : FloatOps F) (v : Expr F) (name : String)
        (args : List (Expr F)),
      Codegen.CodegenVisitor.visit_expr ops (.pipe v [.functionCall name args]) =
        Codegen.FunctionGenerator.call name
          (Codegen.CodegenVisitor.visit_expr ops v ::
            Codegen.CodegenVisitor.visit_list ops args)) ∧
    (∀ (F : Type) (ops : FloatOps F) (v : Expr F) (g : String),
      Codegen.CodegenVisitor.visit_expr ops (.pipe v [.identifier g]) =
        Codegen.FunctionGenerator.call g [Codegen.CodegenVisitor.visit_expr ops v]) ∧
    Parser.parse unitOps "email |> lowercase() |> trim()" =
      .ok (.pipe (.pipe (.identifier "email") [.functionCall "lowercase" []])
        [.functionCall "trim" []]) ∧
    Codegen.CodegenVisitor.visit_expr unitOps
      (.pipe (.pipe (.identifier "email") [.functionCall "lowercase" []])
        [.functionCall "trim" []] : Expr Unit) =
      Codegen.FunctionGenerator.call "trim"
        [Codegen.FunctionGenerator.call "lowercase"
          [Codegen.CodegenVisitor.visit_expr unitOps (.identifier "email")]] ∧
    Codegen.CodegenVisitor.visit_expr unitOps
      (.pipe (.pipe (.identifier "email") [.functionCall "lowercase" []])
        [.functionCall "trim" []] : Expr Unit) = "email.to_lowercase().trim()" :=
  ⟨fun _ _ _ _ _ => rfl, fun _ _ _ _ => rfl, rfl, rfl, rfl⟩

/-! ### C9: the parser ignores trailing tokens -/

/-- C9: `Parser::parse` returns `parse_expression`'s value and discards the
remaining token-list state without an end-of-input check, so any input whose
prefix parses as a complete expression succeeds with the trailing tokens
silently ignored; concretely `"1 2"` leaves `[Integer(2), Eof]` unconsumed
and returns `Ok(1)`, and `"age >= 18)"` leaves the `)` unconsumed and
returns the comparison. -/
theorem C9_thm :
    (∀ (F : Type) (ops : FloatOps F) (input : String) (ts : List (Lexer.Token F))
        (e : Expr F) (rest : List (Lexer.Token F)),
      Lexer.tokenize ops input = .ok ts →
      Parser.parse_expression ops (Parser.parse_fuel ts) ts = .ok (e, rest) →
      Parser.parse ops input = .ok e) ∧
    Lexer.tokenize unitOps "1 2" = .ok [.integer 1, .integer 2, .eof] ∧
    Parser.parse_expression unitOps
        (Parser.parse_fuel ([.integer 1, .integer 2, .eof] : List (Lexer.Token Unit)))
        ([.integer 1, .integer 2, .eof] : List (Lexer.Token Unit)) =
      .ok (.literal (.integer 1), [.integer 2, .eof]) ∧
    Parser.parse unitOps "1 2" = .ok (.literal (.integer 1)) ∧
    Lexer.tokenize unitOps "age >= 18)" =
      .ok [.identifier "age", .greaterEqual, .integer 18, .rightParen, .eof] ∧
    Parser.parse unitOps "age >= 18)" =
      .ok (.binaryOp .gte (.identifier "age") (.literal (.integer 18))) := by
  refine ⟨?_, rfl, rfl, rfl, rfl, rfl⟩
  intro F ops input ts e rest h1 h2
  simp only [Parser.parse, h1, h2]

/-- C9, the general clause witnessed on `"1 2"` with its concrete token
stream and trailing `[Integer(2), Eof]`. -/
theorem C9_witness : Parser.parse unitOps "1 2" = .ok (.literal (.integer 1)) :=
  C9_thm.1 Unit unitOps "1 2" [.integer 1, .integer 2, .eof]
    (.literal (.integer 1)) [.integer 2, .eof] rfl rfl

/-! ### C8: string-literal lexer error positions -/

/-- Every "Unterminated string literal" error the string-body loop produces
carries the remembered start position (the opening quote), whatever path the
loop took to the end of input. -/
theorem read_string_loop_unterminated :
    ∀ (n : Nat) (cs : List Char) (line col sl sc : Nat) (acc : String)
      (err : Lexer.LexError), cs.length ≤ n →
      Lexer.read_string_loop (F := Unit) cs line col sl sc acc = .error err →
      err.message = "Unterminated string literal" →
      err.line = sl ∧ err.column = sc := by
  intro n
  induction n with
  | zero =>
      intro cs line col sl sc acc err hlen h _hmsg
      have hnil : cs = [] := List.eq_nil_of_length_eq_zero (Nat.le_zero.mp hlen)
      subst hnil
      simp only [Lexer.read_string_loop] at h
      cases h
      exact ⟨rfl, rfl⟩
  | succ n ih =>
      intro cs line col sl sc acc err hlen h hmsg
      match cs with
      | [] =>
          simp only [Lexer.read_string_loop] at h
          cases h
          exact ⟨rfl, rfl⟩
      | c :: rest =>
          have hlen' : rest.length ≤ n := by simpa using hlen
          simp only [Lexer.read_string_loop, Lexer.advancePos] at h
          split at h
          · exact absurd h (by simp)
          · split at h
            · split at h
              · exact ih _ _ _ _ _ _ _ (by simp_all; omega) h hmsg
              · exact ih _ _ _ _ _ _ _ (by simp_all; omega) h hmsg
              · exact ih _ _ _ _ _ _ _ (by simp_all; omega) h hmsg
              · exact ih _ _ _ _ _ _ _ (by simp_all; omega) h hmsg
              · exact ih _ _ _ _ _ _ _ (by simp_all; omega) h hmsg
              · cases h; simp at hmsg
            · exact ih _ _ _ _ _ _ _ hlen' h hmsg

/-- C8: false as stated. An unrecognized escape sequence is reported at the
position of the offending character after the backslash, not at the string's
opening quote: `tokenize("'a\q'")` fails at line 1, column 4, while the
opening quote stands at column 1. -/
theorem C8_counterexample :
    Lexer.tokenize unitOps "'a\\q'" = .error ⟨"Invalid escape sequence", 1, 4⟩ ∧
    decide ((4 : Nat) = 1) = false :=
  ⟨rfl, rfl⟩

/-- C8 (amended): an unterminated single-quoted string is a LexError at the
opening quote's line and column (proved for every input reaching
`read_string`), while an unrecognized escape sequence is a LexError at the
position of the character following the backslash — concretely, column 4 for
`"'a\q'"`, not the opening quote's column 1. -/
theorem C8_amended :
    (∀ (cs : List Char) (line col : Nat) (err : Lexer.LexError),
      Lexer.read_string (F := Unit) cs line col = .error err →
      err.message = "Unterminated string literal" →
      err.line = line ∧ err.column = col) ∧
    Lexer.tokenize unitOps "'hello" = .error ⟨"Unterminated string literal", 1, 1⟩ ∧
    Lexer.tokenize unitOps "'a\\q'" = .error ⟨"Invalid escape sequence", 1, 4⟩ := by
  refine ⟨?_, rfl, rfl⟩
  intro cs line col err h hmsg
  match cs with
  | [] =>
      simp only [Lexer.read_string] at h
      cases h
      exact ⟨rfl, rfl⟩
  | q :: rest =>
      simp only [Lexer.read_string] at h
      exact read_string_loop_unterminated rest.length rest _ _ line col "" err
        le_rfl h hmsg

/-- C8 (amended), witnessed on the unterminated input `'hello`: the error
position equals the opening quote's `(1, 1)`. -/
theorem C8_amended_witness :
    Lexer.LexError.line ⟨"Unterminated string literal", 1, 1⟩ = 1 ∧
    Lexer.LexError.column ⟨"Unterminated string literal", 1, 1⟩ = 1 :=
  C8_amended.1 "'hello".toList 1 1 ⟨"Unterminated string literal", 1, 1⟩ rfl rfl

/-! ### C10: agreement of the two type-inference entry points -/

/-- C10: false as stated. The per-variant handlers of the
`Visitor<InferredType>` implementation disagree with `infer` on the four
temporal variants: `visit_date`, `visit_datetime`, `visit_duration` and
`visit_temporal_keyword` all return `String`, while `infer` assigns `Date`,
`DateTime`, `Duration` and `DateTime` (for `NOW`) to the same nodes. -/
theorem C10_counterexample :
    TIVisitor.visit_date "2024-01-15" = .string ∧
    TypeInference.infer (Expr.date "2024-01-15" : Expr Unit) = .date ∧
    TIVisitor.visit_datetime "2024-01-15T10:30:00Z" = .string ∧
    TypeInference.infer (Expr.dateTime "2024-01-15T10:30:00Z" : Expr Unit) = .dateTime ∧
    TIVisitor.visit_duration "P1D" = .string ∧
    TypeInference.infer (Expr.duration "P1D" : Expr Unit) = .duration ∧
    TIVisitor.visit_temporal_keyword .now = .string ∧
    TypeInference.infer (Expr.temporalKeyword .now : Expr Unit) = .dateTime ∧
    decide ((InferredType.string : InferredType) = .date) = false :=
  ⟨rfl, rfl, rfl, rfl, rfl, rfl, rfl, rfl, rfl⟩

/-- C10 (amended): `infer` and the generic `visit_expr` agree on every
expression (both delegate to `infer_expr`), and every per-variant handler
agrees with `infer` on its node — except `visit_date`, `visit_datetime`,
`visit_duration` and `visit_temporal_keyword`, which return `String` where
`infer` assigns the temporal types, and `visit_pipe` on an empty stage list,
which infers the piped value where `infer` returns `Unknown`. -/
theorem C10_amended :
    (∀ (e : Expr Unit), TIVisitor.visit_expr e = TypeInference.infer e) ∧
    (∀ (l : Literal Unit),
      TIVisitor.visit_literal l = TypeInference.infer (.literal l)) ∧
    (TIVisitor.visit_null = TypeInference.infer (Expr.null : Expr Unit)) ∧
    (∀ name, TIVisitor.visit_identifier name =
      TypeInference.infer (Expr.identifier name : Expr Unit)) ∧
    (∀ (r : Expr Unit) f, TIVisitor.visit_field_access r f =
      TypeInference.infer (.fieldAccess r f)) ∧
    (∀ op (l r : Expr Unit), TIVisitor.visit_binary_op op l r =
      TypeInference.infer (.binaryOp op l r)) ∧
    (∀ op (o : Expr Unit), TIVisitor.visit_unary_op op o =
      TypeInference.infer (.unaryOp op o)) ∧
    (∀ name (args : List (Expr Unit)), TIVisitor.visit_function_call name args =
      TypeInference.infer (.functionCall name args)) ∧
    (∀ p (b : Expr Unit), TIVisitor.visit_lambda p b =
      TypeInference.infer (.lambda p b)) ∧
    (∀ n (v b : Expr Unit), TIVisitor.visit_let n v b =
      TypeInference.infer (.letE n v b)) ∧
    (∀ (c t e : Expr Unit), TIVisitor.visit_if c t e =
      TypeInference.infer (.ifE c t e)) ∧
    (∀ (es : List (Expr Unit)), TIVisitor.visit_array es =
      TypeInference.infer (.array es)) ∧
    (∀ (fs : List (String × Expr Unit)), TIVisitor.visit_object fs =
      TypeInference.infer (.object fs)) ∧
    (∀ (p a : Expr Unit), TIVisitor.visit_alternative p a =
      TypeInference.infer (.alternative p a)) ∧
    (∀ (c b : Expr Unit), TIVisitor.visit_guard c b =
      TypeInference.infer (.guard c b)) ∧
    (∀ s, TIVisitor.visit_string s =
      TypeInference.infer (Expr.string s : Expr Unit)) ∧
    (∀ (v : Expr Unit) (f : Expr Unit) fs, TIVisitor.visit_pipe v (f :: fs) =
      TypeInference.infer (.pipe v (f :: fs))) ∧
    (∀ (v : Expr Unit), TIVisitor.visit_pipe v [] = TypeInference.infer v ∧
      TypeInference.infer (.pipe v [] : Expr Unit) = .unknown) ∧
    (∀ d, TIVisitor.visit_date d = .string ∧
      TypeInference.infer (Expr.date d : Expr Unit) = .date) ∧
    (∀ d, TIVisitor.visit_datetime d = .string ∧
      TypeInference.infer (Expr.dateTime d : Expr Unit) = .dateTime) ∧
    (∀ d, TIVisitor.visit_duration d = .string ∧
      TypeInference.infer (Expr.duration d : Expr Unit) = .duration) ∧
    (∀ k, TIVisitor.visit_temporal_keyword k = .string) ∧
    (TypeInference.infer (Expr.temporalKeyword .now : Expr Unit) = .dateTime) ∧
    (TypeInference.infer (Expr.temporalKeyword .today : Expr Unit) = .date) :=
  ⟨fun _ => rfl, fun l => by cases l <;> rfl, rfl, fun _ => rfl, fun _ _ => rfl,
    fun _ _ _ => rfl, fun _ _ => rfl, fun _ _ => rfl, fun _ _ => rfl,
    fun _ _ _ => rfl, fun _ _ _ => rfl, fun es => by cases es <;> rfl, fun _ => rfl,
    fun _ _ => rfl, fun _ _ => rfl, fun _ => rfl, fun _ _ _ => rfl,
    fun _ => ⟨rfl, rfl⟩, fun _ => ⟨rfl, rfl⟩, fun _ => ⟨rfl, rfl⟩,
    fun _ => ⟨rfl, rfl⟩, fun _ => rfl, rfl, rfl⟩

/-! ### C7: folding preserves compound nodes -/

/-- C7: constant folding never evaluates a compound or control-flow node:
for each of the ten compound kinds (If, Array, Object, FieldAccess,
FunctionCall, Lambda, Let, Pipe, Alternative, Guard), folding returns the
same node kind with the recursively folded children; in particular
`fold(parse("if true then 1 else 2"))` remains an `If` node, never the
literal `1`. -/
theorem C7_thm :
    (∀ (F : Type) (ops : FloatOps F) (c t e c' t' e' : Expr F),
      Optimizer.fold_constants ops c = .ok c' →
      Optimizer.fold_constants ops t = .ok t' →
      Optimizer.fold_constants ops e = .ok e' →
      Optimizer.fold_constants ops (.ifE c t e) = .ok (.ifE c' t' e')) ∧
    (∀ (F : Type) (ops : FloatOps F) (es es' : List (Expr F)),
      Optimizer.fold_list ops es = .ok es' →
      Optimizer.fold_constants ops (.array es) = .ok (.array es')) ∧
    (∀ (F : Type) (ops : FloatOps F) (fs fs' : List (String × Expr F)),
      Optimizer.fold_fields ops fs = .ok fs' →
      Optimizer.fold_constants ops (.object fs) = .ok (.object fs')) ∧
    (∀ (F : Type) (ops : FloatOps F) (r r' : Expr F) (field : String),
      Optimizer.fold_constants ops r = .ok r' →
      Optimizer.fold_constants ops (.fieldAccess r field) = .ok (.fieldAccess r' field)) ∧
    (∀ (F : Type) (ops : FloatOps F) (name : String) (args args' : List (Expr F)),
      Optimizer.fold_list ops args = .ok args' →
      Optimizer.fold_constants ops (.functionCall name args) =
        .ok (.functionCall name args')) ∧
    (∀ (F : Type) (ops : FloatOps F) (p : String) (b b' : Expr F),
      Optimizer.fold_constants ops b = .ok b' →
      Optimizer.fold_constants ops (.lambda p b) = .ok (.lambda p b')) ∧
    (∀ (F : Type) (ops : FloatOps F) (n : String) (v b v' b' : Expr F),
      Optimizer.fold_constants ops v = .ok v' →
      Optimizer.fold_constants ops b = .ok b' →
      Optimizer.fold_constants ops (.letE n v b) = .ok (.letE n v' b')) ∧
    (∀ (F : Type) (ops : FloatOps F) (v v' : Expr F) (fns fns' : List (Expr F)),
      Optimizer.fold_constants ops v = .ok v' →
      Optimizer.fold_list ops fns = .ok fns' →
      Optimizer.fold_constants ops (.pipe v fns) = .ok (.pipe v' fns')) ∧
    (∀ (F : Type) (ops : FloatOps F) (p a p' a' : Expr F),
      Optimizer.fold_constants ops p = .ok p' →
      Optimizer.fold_constants ops a = .ok a' →
      Optimizer.fold_constants ops (.alternative p a) = .ok (.alternative p' a')) ∧
    (∀ (F : Type) (ops : FloatOps F) (c b c' b' : Expr F),
      Optimizer.fold_constants ops c = .ok c' →
      Optimizer.fold_constants ops b = .ok b' →
      Optimizer.fold_constants ops (.guard c b) = .ok (.guard c' b')) ∧
    Parser.parse unitOps "if true then 1 else 2" =
      .ok (.ifE (.literal (.boolean true)) (.literal (.integer 1))
        (.literal (.integer 2))) ∧
    Optimizer.fold_constants unitOps
        (.ifE (.literal (.boolean true)) (.literal (.integer 1))
          (.literal (.integer 2)) : Expr Unit) =
      .ok (.ifE (.literal (.boolean true)) (.literal (.integer 1))
        (.literal (.integer 2))) := by
  refine ⟨?_, ?_, ?_, ?_, ?_, ?_, ?_, ?_, ?_, ?_, rfl, rfl⟩ <;>
    intros <;>
    simp_all [Optimizer.fold_constants, Bind.bind, Except.bind, Pure.pure, Except.pure]

/-- C7, the If clause witnessed on `if true then 1 else 2`. -/
theorem C7_witness :
    Optimizer.fold_constants unitOps
        (.ifE (.literal (.boolean true)) (.literal (.integer 1))
          (.literal (.integer 2)) : Expr Unit) =
      .ok (.ifE (.literal (.boolean true)) (.literal (.integer 1))
        (.literal (.integer 2))) :=
  C7_thm.1 Unit unitOps _ _ _ _ _ _ rfl rfl rfl

/-! ### C3: integer constant folding -/

/-- C3: almost as claimed — Add/Sub/Mul fold to the exact result when it fits
in `i64` and are skipped on overflow; Div folds to the truncated quotient for
a nonzero divisor away from `i64::MIN / -1` and is skipped on a zero divisor
or that overflow pair; Pow folds exactly for exponents in `0..=31` when
representable and is skipped outside that range — but the Mod arm uses the
unchecked `%`, so folding `i64::MIN % -1` panics (modelled as the `Except`
error carrying Rust's panic message) instead of folding to the representable
result `0`. -/
theorem C3_thm :
    Optimizer.fold_constants unitOps
        (.binaryOp .mod (.literal (.integer I64_MIN)) (.literal (.integer (-1)))) =
      .error "attempt to calculate the remainder with overflow" ∧
    (∀ a b : Int, i64Fits a → i64Fits b →
      Optimizer.fold_constants unitOps
          (.binaryOp .add (.literal (.integer a)) (.literal (.integer b))) =
        (if i64Fits (a + b) then .ok (.literal (.integer (a + b)))
         else .ok (.binaryOp .add (.literal (.integer a)) (.literal (.integer b))))) ∧
    (∀ a b : Int, i64Fits a → i64Fits b →
      Optimizer.fold_constants unitOps
          (.binaryOp .sub (.literal (.integer a)) (.literal (.integer b))) =
        (if i64Fits (a - b) then .ok (.literal (.integer (a - b)))
         else .ok (.binaryOp .sub (.literal (.integer a)) (.literal (.integer b))))) ∧
    (∀ a b : Int, i64Fits a → i64Fits b →
      Optimizer.fold_constants unitOps
          (.binaryOp .mul (.literal (.integer a)) (.literal (.integer b))) =
        (if i64Fits (a * b) then .ok (.literal (.integer (a * b)))
         else .ok (.binaryOp .mul (.literal (.integer a)) (.literal (.integer b))))) ∧
    (∀ a b : Int, b ≠ 0 → ¬(a = I64_MIN ∧ b = -1) →
      Optimizer.fold_constants unitOps
          (.binaryOp .div (.literal (.integer a)) (.literal (.integer b))) =
        .ok (.literal (.integer (Int.tdiv a b)))) ∧
    (∀ a : Int,
      Optimizer.fold_constants unitOps
          (.binaryOp .div (.literal (.integer a)) (.literal (.integer 0))) =
        .ok (.binaryOp .div (.literal (.integer a)) (.literal (.integer 0)))) ∧
    Optimizer.fold_constants unitOps
        (.binaryOp .div (.literal (.integer I64_MIN)) (.literal (.integer (-1)))) =
      .ok (.binaryOp .div (.literal (.integer I64_MIN)) (.literal (.integer (-1)))) ∧
    (∀ a b : Int, b ≠ 0 → ¬(a = I64_MIN ∧ b = -1) →
      Optimizer.fold_constants unitOps
          (.binaryOp .mod (.literal (.integer a)) (.literal (.integer b))) =
        .ok (.literal (.integer (Int.tmod a b)))) ∧
    (∀ a : Int,
      Optimizer.fold_constants unitOps
          (.binaryOp .mod (.literal (.integer a)) (.literal (.integer 0))) =
        .ok (.binaryOp .mod (.literal (.integer a)) (.literal (.integer 0)))) ∧
    (∀ a b : Int, 0 ≤ b → b ≤ 31 →
      Optimizer.fold_constants unitOps
          (.binaryOp .pow (.literal (.integer a)) (.literal (.integer b))) =
        (if i64Fits (a ^ b.toNat) then .ok (.literal (.integer (a ^ b.toNat)))
         else .ok (.binaryOp .pow (.literal (.integer a)) (.literal (.integer b))))) ∧
    (∀ a b : Int, b < 0 ∨ 31 < b →
      Optimizer.fold_constants unitOps
          (.binaryOp .pow (.literal (.integer a)) (.literal (.integer b))) =
        .ok (.binaryOp .pow (.literal (.integer a)) (.literal (.integer b)))) ∧
    Optimizer.fold_constants unitOps
        (.binaryOp .add (.literal (.integer I64_MAX)) (.literal (.integer 1))) =
      .ok (.binaryOp .add (.literal (.integer I64_MAX)) (.literal (.integer 1))) := by
  refine ⟨rfl, ?_, ?_, ?_, ?_, ?_, rfl, ?_, ?_, ?_, ?_, rfl⟩
  · intro a b _ _
    by_cases hf : i64Fits (a + b) <;>
      simp [Optimizer.fold_constants, Optimizer.fold_binary_op, checkedAdd,
        checkedI64, hf, Bind.bind, Except.bind, Pure.pure, Except.pure]
  · intro a b _ _
    by_cases hf : i64Fits (a - b) <;>
      simp [Optimizer.fold_constants, Optimizer.fold_binary_op, checkedSub,
        checkedI64, hf, Bind.bind, Except.bind, Pure.pure, Except.pure]
  · intro a b _ _
    by_cases hf : i64Fits (a * b) <;>
      simp [Optimizer.fold_constants, Optimizer.fold_binary_op, checkedMul,
        checkedI64, hf, Bind.bind, Except.bind, Pure.pure, Except.pure]
  · intro a b hb hm
    simp [Optimizer.fold_constants, Optimizer.fold_binary_op, checkedDiv, hb,
      hm, Bind.bind, Except.bind, Pure.pure, Except.pure]
  · intro a
    simp [Optimizer.fold_constants, Optimizer.fold_binary_op, Bind.bind,
      Except.bind, Pure.pure, Except.pure]
  · intro a b hb hm
    simp [Optimizer.fold_constants, Optimizer.fold_binary_op, hb, hm,
      Bind.bind, Except.bind, Pure.pure, Except.pure]
  · intro a
    simp [Optimizer.fold_constants, Optimizer.fold_binary_op, Bind.bind,
      Except.bind, Pure.pure, Except.pure]
  · intro a b h0 h31
    have hno : ¬(b < 0 ∨ 31 < b) := by omega
    by_cases hf : i64Fits (a ^ b.toNat) <;>
      simp [Optimizer.fold_constants, Optimizer.fold_binary_op, checkedPow,
        checkedI64, hno, hf, Bind.bind, Except.bind, Pure.pure, Except.pure]
  · intro a b hout
    simp [Optimizer.fold_constants, Optimizer.fold_binary_op, hout, Bind.bind,
      Except.bind, Pure.pure, Except.pure]

/-- C3, the Add clause witnessed at `2 + 3` (fits, folds to `5`). -/
theorem C3_witness :
    Optimizer.fold_constants unitOps
        (.binaryOp .add (.literal (.integer 2)) (.literal (.integer 3))) =
      (if i64Fits (2 + 3) then .ok (.literal (.integer (2 + 3)))
       else .ok (.binaryOp .add (.literal (.integer 2)) (.literal (.integer 3)))) :=
  C3_thm.2.1 2 3 (by decide) (by decide)

/-! ### C4: idempotence of constant folding -/

/-- Inversion of an `Except` bind against an `ok` result. -/
theorem except_bind_ok {ε α β : Type} (x : Except ε α) (f : α → Except ε β) (c : β) :
    (x >>= f) = .ok c ↔ ∃ a, x = .ok a ∧ f a = .ok c := by
  cases x <;> simp [Bind.bind, Except.bind]

theorem fold_binary_op_fixpoint {F : Type} (ops : FloatOps F) (op : BinaryOperator)
    (ll rl : Literal F) (v : Expr F)
    (h : Optimizer.fold_binary_op ops op ll rl = .ok (some v)) :
    Optimizer.fold_constants ops v = .ok v := by
  cases ll <;> cases rl <;> cases op <;>
    simp only [Optimizer.fold_binary_op] at h <;>
    (repeat' split at h) <;>
    simp_all [Option.map_eq_some', Optimizer.fold_constants] <;>
    (obtain ⟨a, -, rfl⟩ := h; simp [Optimizer.fold_constants, Pure.pure, Except.pure])

theorem fold_unary_op_fixpoint {F : Type} (ops : FloatOps F) (op : UnaryOperator)
    (ll : Literal F) (v : Expr F)
    (h : Optimizer.fold_unary_op ops op ll = some v) :
    Optimizer.fold_constants ops v = .ok v := by
  cases op <;> cases ll <;>
    simp only [Optimizer.fold_unary_op] at h <;>
    simp_all [Optimizer.fold_constants] <;>
    (try (obtain ⟨a, -, rfl⟩ := h; simp [Optimizer.fold_constants, Pure.pure, Except.pure]))


theorem expr_sizeOf_pos {F : Type} (e : Expr F) : 0 < sizeOf e := by
  cases e <;> simp_arith

theorem fold_idem_all {F : Type} (ops : FloatOps F) : ∀ (n : Nat),
    (∀ (e : Expr F), sizeOf e ≤ n → ∀ e',
      Optimizer.fold_constants ops e = .ok e' →
      Optimizer.fold_constants ops e' = .ok e') ∧
    (∀ (es : List (Expr F)), sizeOf es ≤ n → ∀ es',
      Optimizer.fold_list ops es = .ok es' →
      Optimizer.fold_list ops es' = .ok es') ∧
    (∀ (fs : List (String × Expr F)), sizeOf fs ≤ n → ∀ fs',
      Optimizer.fold_fields ops fs = .ok fs' →
      Optimizer.fold_fields ops fs' = .ok fs') := by
  intro n
  induction n with
  | zero =>
      refine ⟨fun e he => absurd he (by have := expr_sizeOf_pos e; omega),
        fun es he => absurd he (by cases es <;> simp_arith),
        fun fs he => absurd he (by cases fs <;> simp_arith)⟩
  | succ n ih =>
      obtain ⟨ihE, ihL, ihF⟩ := ih
      refine ⟨?_, ?_, ?_⟩
      · intro e he e' h
        cases e
        case binaryOp op l r =>
          simp at he
          have hl' : sizeOf l ≤ n := by omega
          have hr' : sizeOf r ≤ n := by omega
          simp only [Optimizer.fold_constants] at h
          rw [except_bind_ok] at h
          obtain ⟨lf, hL, h⟩ := h
          rw [except_bind_ok] at h
          obtain ⟨rf, hR, h⟩ := h
          split at h
          · rename_i ll rl
            rw [except_bind_ok] at h
            obtain ⟨opt, hB, h⟩ := h
            cases opt with
            | some v =>
                simp only [Pure.pure, Except.pure, Except.ok.injEq] at h
                subst h
                exact fold_binary_op_fixpoint ops op ll rl _ hB
            | none =>
                simp only [Pure.pure, Except.pure, Except.ok.injEq] at h
                subst h
                simp [Optimizer.fold_constants, hB, Bind.bind, Except.bind,
                  Pure.pure, Except.pure]
          · rename_i hno
            simp only [Pure.pure, Except.pure, Except.ok.injEq] at h
            subst h
            have hLfix := ihE l hl' lf hL
            have hRfix := ihE r hr' rf hR
            simp only [Optimizer.fold_constants, hLfix, hRfix, Bind.bind, Except.bind]
            rfl
        case unaryOp op o =>
          simp at he
          have ho' : sizeOf o ≤ n := by omega
          simp only [Optimizer.fold_constants] at h
          rw [except_bind_ok] at h
          obtain ⟨o1, hO, h⟩ := h
          split at h
          · rename_i ll
            rcases hu : Optimizer.fold_unary_op ops op ll with _ | v <;> rw [hu] at h
            · simp only [Pure.pure, Except.pure, Except.ok.injEq] at h
              subst h
              simp [Optimizer.fold_constants, hu, Bind.bind, Except.bind,
                Pure.pure, Except.pure]
            · simp only [Pure.pure, Except.pure, Except.ok.injEq] at h
              subst h
              exact fold_unary_op_fixpoint ops op ll _ hu
          · rename_i hno
            simp only [Pure.pure, Except.pure, Except.ok.injEq] at h
            subst h
            have hOfix := ihE o ho' o1 hO
            simp only [Optimizer.fold_constants, hOfix, Bind.bind, Except.bind]
            rfl
        case fieldAccess r fld =>
          simp at he
          have hr' : sizeOf r ≤ n := by omega
          simp only [Optimizer.fold_constants] at h
          rw [except_bind_ok] at h
          obtain ⟨r1, hR, h⟩ := h
          simp only [Pure.pure, Except.pure, Except.ok.injEq] at h
          subst h
          simp [Optimizer.fold_constants, ihE r hr' r1 hR, Bind.bind,
            Except.bind, Pure.pure, Except.pure]
        case functionCall name args =>
          simp at he
          have ha' : sizeOf args ≤ n := by omega
          simp only [Optimizer.fold_constants] at h
          rw [except_bind_ok] at h
          obtain ⟨args1, hA, h⟩ := h
          simp only [Pure.pure, Except.pure, Except.ok.injEq] at h
          subst h
          simp [Optimizer.fold_constants, ihL args ha' args1 hA, Bind.bind,
            Except.bind, Pure.pure, Except.pure]
        case lambda p b =>
          simp at he
          have hb' : sizeOf b ≤ n := by omega
          simp only [Optimizer.fold_constants] at h
          rw [except_bind_ok] at h
          obtain ⟨b1, hB, h⟩ := h
          simp only [Pure.pure, Except.pure, Except.ok.injEq] at h
          subst h
          simp [Optimizer.fold_constants, ihE b hb' b1 hB, Bind.bind,
            Except.bind, Pure.pure, Except.pure]
        case letE nm v b =>
          simp at he
          have hv' : sizeOf v ≤ n := by omega
          have hb' : sizeOf b ≤ n := by omega
          simp only [Optimizer.fold_constants] at h
          rw [except_bind_ok] at h
          obtain ⟨v1, hV, h⟩ := h
          rw [except_bind_ok] at h
          obtain ⟨b1, hB, h⟩ := h
          simp only [Pure.pure, Except.pure, Except.ok.injEq] at h
          subst h
          simp [Optimizer.fold_constants, ihE v hv' v1 hV, ihE b hb' b1 hB,
            Bind.bind, Except.bind, Pure.pure, Except.pure]
        case ifE c t el =>
          simp at he
          have hc' : sizeOf c ≤ n := by omega
          have ht' : sizeOf t ≤ n := by omega
          have he' : sizeOf el ≤ n := by omega
          simp only [Optimizer.fold_constants] at h
          rw [except_bind_ok] at h
          obtain ⟨c1, hC, h⟩ := h
          rw [except_bind_ok] at h
          obtain ⟨t1, hT, h⟩ := h
          rw [except_bind_ok] at h
          obtain ⟨e1, hE2, h⟩ := h
          simp only [Pure.pure, Except.pure, Except.ok.injEq] at h
          subst h
          simp [Optimizer.fold_constants, ihE c hc' c1 hC, ihE t ht' t1 hT,
            ihE el he' e1 hE2, Bind.bind, Except.bind, Pure.pure, Except.pure]
        case array es =>
          simp at he
          have ha' : sizeOf es ≤ n := by omega
          simp only [Optimizer.fold_constants] at h
          rw [except_bind_ok] at h
          obtain ⟨es1, hA, h⟩ := h
          simp only [Pure.pure, Except.pure, Except.ok.injEq] at h
          subst h
          simp [Optimizer.fold_constants, ihL es ha' es1 hA, Bind.bind,
            Except.bind, Pure.pure, Except.pure]
        case object fs =>
          simp at he
          have hf' : sizeOf fs ≤ n := by omega
          simp only [Optimizer.fold_constants] at h
          rw [except_bind_ok] at h
          obtain ⟨fs1, hF, h⟩ := h
          simp only [Pure.pure, Except.pure, Except.ok.injEq] at h
          subst h
          simp [Optimizer.fold_constants, ihF fs hf' fs1 hF, Bind.bind,
            Except.bind, Pure.pure, Except.pure]
        case pipe v fns =>
          simp at he
          have hv' : sizeOf v ≤ n := by omega
          have hf' : sizeOf fns ≤ n := by omega
          simp only [Optimizer.fold_constants] at h
          rw [except_bind_ok] at h
          obtain ⟨v1, hV, h⟩ := h
          rw [except_bind_ok] at h
          obtain ⟨fns1, hF, h⟩ := h
          simp only [Pure.pure, Except.pure, Except.ok.injEq] at h
          subst h
          simp [Optimizer.fold_constants, ihE v hv' v1 hV, ihL fns hf' fns1 hF,
            Bind.bind, Except.bind, Pure.pure, Except.pure]
        case alternative p a =>
          simp at he
          have hp' : sizeOf p ≤ n := by omega
          have ha' : sizeOf a ≤ n := by omega
          simp only [Optimizer.fold_constants] at h
          rw [except_bind_ok] at h
          obtain ⟨p1, hP, h⟩ := h
          rw [except_bind_ok] at h
          obtain ⟨a1, hA, h⟩ := h
          simp only [Pure.pure, Except.pure, Except.ok.injEq] at h
          subst h
          simp [Optimizer.fold_constants, ihE p hp' p1 hP, ihE a ha' a1 hA,
            Bind.bind, Except.bind, Pure.pure, Except.pure]
        case guard c b =>
          simp at he
          have hc' : sizeOf c ≤ n := by omega
          have hb' : sizeOf b ≤ n := by omega
          simp only [Optimizer.fold_constants] at h
          rw [except_bind_ok] at h
          obtain ⟨c1, hC, h⟩ := h
          rw [except_bind_ok] at h
          obtain ⟨b1, hB, h⟩ := h
          simp only [Pure.pure, Except.pure, Except.ok.injEq] at h
          subst h
          simp [Optimizer.fold_constants, ihE c hc' c1 hC, ihE b hb' b1 hB,
            Bind.bind, Except.bind, Pure.pure, Except.pure]
        all_goals
          simp only [Optimizer.fold_constants, Pure.pure, Except.pure,
            Except.ok.injEq] at h
          subst h
          rfl
      · intro es he es' h
        cases es with
        | nil =>
            simp only [Optimizer.fold_list, Pure.pure, Except.pure,
              Except.ok.injEq] at h
            subst h
            rfl
        | cons e rest =>
            simp at he
            have h1 : sizeOf e ≤ n := by omega
            have h2 : sizeOf rest ≤ n := by omega
            simp only [Optimizer.fold_list] at h
            rw [except_bind_ok] at h
            obtain ⟨e1, hE, h⟩ := h
            rw [except_bind_ok] at h
            obtain ⟨rest1, hR, h⟩ := h
            simp only [Pure.pure, Except.pure, Except.ok.injEq] at h
            subst h
            simp [Optimizer.fold_list, ihE e h1 e1 hE, ihL rest h2 rest1 hR,
              Bind.bind, Except.bind, Pure.pure, Except.pure]
      · intro fs he fs' h
        cases fs with
        | nil =>
            simp only [Optimizer.fold_fields, Pure.pure, Except.pure,
              Except.ok.injEq] at h
            subst h
            rfl
        | cons kv rest =>
            obtain ⟨k, v⟩ := kv
            simp at he
            have h1 : sizeOf v ≤ n := by omega
            have h2 : sizeOf rest ≤ n := by omega
            simp only [Optimizer.fold_fields] at h
            rw [except_bind_ok] at h
            obtain ⟨v1, hV, h⟩ := h
            rw [except_bind_ok] at h
            obtain ⟨rest1, hR, h⟩ := h
            simp only [Pure.pure, Except.pure, Except.ok.injEq] at h
            subst h
            simp [Optimizer.fold_fields, ihE v h1 v1 hV, ihF rest h2 rest1 hR,
              Bind.bind, Except.bind, Pure.pure, Except.pure]

/-- C4: constant folding is idempotent — whenever `fold` returns a value
(i.e. does not hit the `i64::MIN % -1` panic), folding that value again
returns it unchanged. -/
theorem C4_thm : ∀ (F : Type) (ops : FloatOps F) (e e' : Expr F),
    Optimizer.fold_constants ops e = .ok e' →
    Optimizer.fold_constants ops e' = .ok e' :=
  fun _ ops e e' h => (fold_idem_all ops (sizeOf e)).1 e le_rfl e' h

/-- C4, witnessed on `4 + 6`: the fold result `10` refolds to itself. -/
theorem C4_witness :
    Optimizer.fold_constants unitOps (.literal (.integer 10) : Expr Unit) =
      .ok (.literal (.integer 10)) :=
  C4_thm Unit unitOps (.binaryOp .add (.literal (.integer 4)) (.literal (.integer 6)))
    (.literal (.integer 10)) rfl

end Elo
